import Mathlib

/-!
Shallow embedding of the ibex 6502/Apex emulator (brouhaha/ibex).

The definitions below are translated from the C++ sources:
  cpu6502.cc / cpu6502.hh   (CPU6502Registers, CPU6502, effective addresses,
                             instruction semantics, halt detection)
  instruction_set.cc / .hh  (the opcode catalog with cycle metadata)
  memory.cc / memory.hh     (bounds-checked 8/16-bit access, SAV loader)
  apex.cc / apex.hh         (system-page vector dispatch, KHAND byte I/O)
  ibex.cc                   (main execution loop vector-band check)

Machine integers are modelled as Nat with explicit masking where the C++
types wrap (uint8, uint16), and fallible operations (std::vector::at and
C++ exceptions) return Option.
-/

namespace Ibex

/-- Status flag bit positions, from CPU6502Registers::Flag
(C=0, Z=1, I=2, D=3, B=4, P5=5, V=6, N=7). -/
inductive Flag
  | C | Z | I | D | B | P5 | V | N
deriving DecidableEq, Repr

def Flag.index : Flag → Nat
  | .C => 0
  | .Z => 1
  | .I => 2
  | .D => 3
  | .B => 4
  | .P5 => 5
  | .V => 6
  | .N => 7

/-- Register file, from cpu6502.hh.  In the C++ source a, x, y, s, pc are
uint16 and p is uint8; e is the 65816 emulation-mode flag (initialized to 1
by the constructor and never written by any implemented instruction). -/
structure CPU6502Registers where
  a : Nat
  x : Nat
  y : Nat
  s : Nat
  pc : Nat
  p : Nat
  e : Bool
deriving DecidableEq, Repr

namespace CPU6502Registers

/-- CPU6502Registers::test: (p >> flag) & 1. -/
def test (r : CPU6502Registers) (fl : Flag) : Bool :=
  ((r.p >>> fl.index) &&& 1) = 1

/-- CPU6502Registers::set with a boolean value; clearing masks to 8 bits
as the uint8 status register does. -/
def set (r : CPU6502Registers) (fl : Flag) (value : Bool) : CPU6502Registers :=
  if value then
    { r with p := r.p ||| (1 <<< fl.index) }
  else
    { r with p := r.p &&& (0xff ^^^ (1 <<< fl.index)) }

/-- CPU6502Registers::clear. -/
def clear (r : CPU6502Registers) (fl : Flag) : CPU6502Registers :=
  { r with p := r.p &&& (0xff ^^^ (1 <<< fl.index)) }

def test_c (r : CPU6502Registers) : Bool := r.test .C
def test_z (r : CPU6502Registers) : Bool := r.test .Z
def test_d (r : CPU6502Registers) : Bool := r.test .D
def test_v (r : CPU6502Registers) : Bool := r.test .V
def test_n (r : CPU6502Registers) : Bool := r.test .N

def set_c (r : CPU6502Registers) (v : Bool) : CPU6502Registers := r.set .C v
def set_z (r : CPU6502Registers) (v : Bool) : CPU6502Registers := r.set .Z v
def set_i (r : CPU6502Registers) (v : Bool) : CPU6502Registers := r.set .I v
def set_d (r : CPU6502Registers) (v : Bool) : CPU6502Registers := r.set .D v
def set_v (r : CPU6502Registers) (v : Bool) : CPU6502Registers := r.set .V v
def set_n (r : CPU6502Registers) (v : Bool) : CPU6502Registers := r.set .N v

/-- CPU6502Registers::set_n_z_for_result: Z from result==0, N from bit 7. -/
def set_n_z_for_result (r : CPU6502Registers) (result : Nat) : CPU6502Registers :=
  (r.set_z (result = 0)).set_n (((result >>> 7) &&& 1) = 1)

end CPU6502Registers

/-- Memory, from memory.hh / memory.cc: a byte vector of a given size.
The m_memory field is the contents function; std::vector::at raises
std::out_of_range past the end, modelled by Option. -/
structure Memory where
  size : Nat
  m_memory : Nat → Nat

namespace Memory

/-- Memory::read_8 via vector::at (bounds-checked). -/
def read_8 (m : Memory) (addr : Nat) : Option Nat :=
  if addr < m.size then some (m.m_memory addr) else none

/-- Memory::read_16_le: at(addr) | (at(addr+1) << 8). -/
def read_16_le (m : Memory) (addr : Nat) : Option Nat :=
  match m.read_8 addr, m.read_8 (addr + 1) with
  | some lo, some hi => some (lo ||| (hi <<< 8))
  | _, _ => none

/-- Memory::write_8 via vector::at (bounds-checked). -/
def write_8 (m : Memory) (addr data : Nat) : Option Memory :=
  if addr < m.size then
    some { m with m_memory := fun a => if a = addr then data else m.m_memory a }
  else none

end Memory

/-- Instruction variant sets, from InstructionSet::Set in instruction_set.hh
(the catalog source file names ROCKWELL and CBM_CMOS what the current header
calls ROCKWELL_BIT and CBM_65CE02). -/
inductive ISet
  | UNDEFINED | BASE | ROCKWELL | CMOS | WDC_CMOS | WDC_16BIT | CBM_CMOS
deriving DecidableEq, Repr

/-- Active variant bitset, from InstructionSet::Sets
(magic_enum bitset over Set). -/
structure Sets where
  base : Bool
  rockwell : Bool
  cmos : Bool
  wdc_cmos : Bool
  wdc_16bit : Bool
  cbm_cmos : Bool
deriving DecidableEq, Repr

def Sets.test (s : Sets) : ISet → Bool
  | .UNDEFINED => false
  | .BASE => s.base
  | .ROCKWELL => s.rockwell
  | .CMOS => s.cmos
  | .WDC_CMOS => s.wdc_cmos
  | .WDC_16BIT => s.wdc_16bit
  | .CBM_CMOS => s.cbm_cmos

/-- InstructionSet::CPU_6502 = BASE only. -/
def CPU_6502 : Sets := ⟨true, false, false, false, false, false⟩

/-- InstructionSet::CPU_R65C02 = BASE, CMOS, ROCKWELL. -/
def CPU_R65C02 : Sets := ⟨true, true, true, false, false, false⟩

/-- Instruction kinds, from InstructionSet::Inst in the current
instruction_set.hh (the Rockwell bit instructions are single kinds BBR,
BBS, RMB, SMB; the bit index is recovered from the opcode). -/
inductive Inst
  | ADC | AND | ASL | ASR | ASW | AUG | BBR | BBS | BCC | BCS
  | BEQ | BIT | BMI | BNE | BPL | BRA | BRK | BRL | BSR | BVC
  | BVS | CLC | CLD | CLE | CLI | CLV | CMP | COP | CPX | CPY
  | CPZ | DEC | DEW | DEX | DEY | DEZ | EOR | INC | INW | INX
  | INY | INZ | JML | JMP | JSL | JSR | LDA | LDX | LDY | LDZ
  | LSR | MVN | MVP | NEG | NOP | ORA | PEA | PEI | PER | PHA
  | PHB | PHD | PHK | PHP | PHW | PHX | PHY | PHZ | PLA | PLB
  | PLD | PLP | PLW | PLX | PLY | PLZ | REP | RMB | ROL | ROR
  | ROW | RTI | RTL | RTN | RTS | SBC | SEC | SED | SEE | SEI
  | SEP | SMB | STA | STP | STX | STY | STZ | TAB | TAX | TAY
  | TAZ | TBA | TCD | TCS | TDC | TRB | TSB | TSX | TSY | TXA
  | TXS | TYA | TYS | TYX | TZA | WAI | WDM | XBA | XCE
deriving DecidableEq, Repr

/-- Addressing modes, from InstructionSet::Mode (the 18 modes used by the
catalog and CPU6502::compute_effective_address). -/
inductive Mode
  | IMPLIED | ACCUMULATOR | IMMEDIATE | ZERO_PAGE | ZERO_PAGE_X
  | ZERO_PAGE_Y | ZP_IND | ZP_X_IND | ZP_IND_Y | ABSOLUTE
  | ABSOLUTE_X | ABSOLUTE_Y | ABSOLUTE_IND | ABS_X_IND | RELATIVE
  | ZP_RELATIVE | RELATIVE_16 | ST_VEC_IND_Y
deriving DecidableEq, Repr

/-- Instruction record, from InstructionSet::Info. -/
structure Info where
  mnemonic : String
  set : ISet
  inst : Inst
  mode : Mode
  opcode : Nat
  base_cycle_count : Nat
  page_crossing_extra_cycle : Bool
  nmos_extra_cycle_forced : Bool
  cmos_extra_cycle : Bool
deriving DecidableEq, Repr

/-- Row constructor shorthand for the catalog table. -/
def row (mn : String) (st : ISet) (ik : Inst) (md : Mode) (op bc : Nat)
    (px nf ce : Bool) : Info :=
  ⟨mn, st, ik, md, op, bc, px, nf, ce⟩

/-- The value UNKNOWN_CYCLE_COUNT used for exotic variants in the table. -/
def UNKNOWN_CYCLE_COUNT : Nat := 0xff

/-- Per-mode added cycles, from s_address_mode_added_cycles in
instruction_set.cc. -/
def address_mode_added_cycles : Mode → Nat
  | .IMPLIED => 0
  | .ACCUMULATOR => 0
  | .IMMEDIATE => 1
  | .ZERO_PAGE => 2
  | .ZERO_PAGE_X => 3
  | .ZERO_PAGE_Y => 3
  | .ZP_IND => 4
  | .ZP_X_IND => 5
  | .ZP_IND_Y => 4
  | .ABSOLUTE => 3
  | .ABSOLUTE_X => 3
  | .ABSOLUTE_Y => 3
  | .ABSOLUTE_IND => 5
  | .ABS_X_IND => 5
  | .RELATIVE => 0
  | .ZP_RELATIVE => 2
  | .RELATIVE_16 => 2
  | .ST_VEC_IND_Y => 1

/-- The static instruction catalog, transcribed from s_main_table in
instruction_set.cc.  The bbr0..bbr7, bbs0..bbs7, rmb0..rmb7, smb0..smb7
rows carry the collective Inst kinds BBR, BBS, RMB, SMB of the current
header; their executors recover the bit index from the opcode. -/
def s_main_table : List Info :=
  [ row "adc"  .BASE     .ADC  .IMMEDIATE    0x69 1 false false false,
    row "adc"  .BASE     .ADC  .ZERO_PAGE    0x65 1 false false false,
    row "adc"  .BASE     .ADC  .ZERO_PAGE_X  0x75 1 false false false,
    row "adc"  .CMOS     .ADC  .ZP_IND       0x72 1 false false false,
    row "adc"  .BASE     .ADC  .ZP_X_IND     0x61 1 false false false,
    row "adc"  .BASE     .ADC  .ZP_IND_Y     0x71 1 true  false false,
    row "adc"  .BASE     .ADC  .ABSOLUTE     0x6d 1 false false false,
    row "adc"  .BASE     .ADC  .ABSOLUTE_X   0x7d 1 true  false false,
    row "adc"  .BASE     .ADC  .ABSOLUTE_Y   0x79 1 true  false false,
    row "and"  .BASE     .AND  .IMMEDIATE    0x29 1 false false false,
    row "and"  .BASE     .AND  .ZERO_PAGE    0x25 1 false false false,
    row "and"  .BASE     .AND  .ZERO_PAGE_X  0x35 1 false false false,
    row "and"  .CMOS     .AND  .ZP_IND       0x32 1 false false false,
    row "and"  .BASE     .AND  .ZP_X_IND     0x21 1 false false false,
    row "and"  .BASE     .AND  .ZP_IND_Y     0x31 1 true  false false,
    row "and"  .BASE     .AND  .ABSOLUTE     0x2d 1 false false false,
    row "and"  .BASE     .AND  .ABSOLUTE_X   0x3d 1 true  false false,
    row "and"  .BASE     .AND  .ABSOLUTE_Y   0x39 1 true  false false,
    row "asl"  .BASE     .ASL  .ACCUMULATOR  0x0a 2 false false false,
    row "asl"  .BASE     .ASL  .ZERO_PAGE    0x06 3 false false false,
    row "asl"  .BASE     .ASL  .ZERO_PAGE_X  0x16 3 false false false,
    row "asl"  .BASE     .ASL  .ABSOLUTE     0x0e 3 false false false,
    row "asl"  .BASE     .ASL  .ABSOLUTE_X   0x1e 3 true  true  false,
    row "asr"  .CBM_CMOS .ASR  .ACCUMULATOR  0x43 UNKNOWN_CYCLE_COUNT false false false,
    row "asr"  .CBM_CMOS .ASR  .ZERO_PAGE    0x44 UNKNOWN_CYCLE_COUNT false false false,
    row "asr"  .CBM_CMOS .ASR  .ZERO_PAGE_X  0x54 UNKNOWN_CYCLE_COUNT false false false,
    row "asw"  .CBM_CMOS .ASW  .ABSOLUTE     0xcb UNKNOWN_CYCLE_COUNT false false false,
    row "aug"  .CBM_CMOS .AUG  .IMPLIED      0x5c UNKNOWN_CYCLE_COUNT false false false,
    row "bbr0" .ROCKWELL .BBR  .ZP_RELATIVE  0x0f 3 false false false,
    row "bbr1" .ROCKWELL .BBR  .ZP_RELATIVE  0x1f 3 false false false,
    row "bbr2" .ROCKWELL .BBR  .ZP_RELATIVE  0x2f 3 false false false,
    row "bbr3" .ROCKWELL .BBR  .ZP_RELATIVE  0x3f 3 false false false,
    row "bbr4" .ROCKWELL .BBR  .ZP_RELATIVE  0x4f 3 false false false,
    row "bbr5" .ROCKWELL .BBR  .ZP_RELATIVE  0x5f 3 false false false,
    row "bbr6" .ROCKWELL .BBR  .ZP_RELATIVE  0x6f 3 false false false,
    row "bbr7" .ROCKWELL .BBR  .ZP_RELATIVE  0x7f 3 false false false,
    row "bbs0" .ROCKWELL .BBS  .ZP_RELATIVE  0x8f 3 false false false,
    row "bbs1" .ROCKWELL .BBS  .ZP_RELATIVE  0x9f 3 false false false,
    row "bbs2" .ROCKWELL .BBS  .ZP_RELATIVE  0xaf 3 false false false,
    row "bbs3" .ROCKWELL .BBS  .ZP_RELATIVE  0xbf 3 false false false,
    row "bbs4" .ROCKWELL .BBS  .ZP_RELATIVE  0xcf 3 false false false,
    row "bbs5" .ROCKWELL .BBS  .ZP_RELATIVE  0xdf 3 false false false,
    row "bbs6" .ROCKWELL .BBS  .ZP_RELATIVE  0xef 3 false false false,
    row "bbs7" .ROCKWELL .BBS  .ZP_RELATIVE  0xff 3 false false false,
    row "bcc"  .BASE     .BCC  .RELATIVE     0x90 2 false false false,
    row "bcc"  .CBM_CMOS .BCC  .RELATIVE_16  0x93 UNKNOWN_CYCLE_COUNT false false false,
    row "bcs"  .BASE     .BCS  .RELATIVE     0xb0 2 false false false,
    row "bcs"  .CBM_CMOS .BCS  .RELATIVE_16  0xb3 UNKNOWN_CYCLE_COUNT false false false,
    row "beq"  .BASE     .BEQ  .RELATIVE     0xf0 2 false false false,
    row "beq"  .CBM_CMOS .BEQ  .RELATIVE_16  0xf3 UNKNOWN_CYCLE_COUNT false false false,
    row "bit"  .CMOS     .BIT  .IMMEDIATE    0x89 1 false false false,
    row "bit"  .BASE     .BIT  .ZERO_PAGE    0x24 1 false false false,
    row "bit"  .CMOS     .BIT  .ZERO_PAGE_X  0x34 1 false false false,
    row "bit"  .BASE     .BIT  .ABSOLUTE     0x2c 1 false false false,
    row "bit"  .CMOS     .BIT  .ABSOLUTE_X   0x3c 1 true  false false,
    row "bmi"  .BASE     .BMI  .RELATIVE     0x30 2 false false false,
    row "bmi"  .CBM_CMOS .BMI  .RELATIVE_16  0x33 UNKNOWN_CYCLE_COUNT false false false,
    row "bne"  .BASE     .BNE  .RELATIVE     0xd0 2 false false false,
    row "bne"  .CBM_CMOS .BNE  .RELATIVE_16  0xd3 UNKNOWN_CYCLE_COUNT false false false,
    row "bpl"  .BASE     .BPL  .RELATIVE     0x10 2 false false false,
    row "bpl"  .CBM_CMOS .BPL  .RELATIVE_16  0x13 UNKNOWN_CYCLE_COUNT false false false,
    row "brk"  .BASE     .BRK  .IMPLIED      0x00 7 false false false,
    row "bra"  .CMOS     .BRA  .RELATIVE     0x80 2 false false false,
    row "bra"  .CBM_CMOS .BRA  .RELATIVE_16  0x83 UNKNOWN_CYCLE_COUNT false false false,
    row "bsr"  .CBM_CMOS .BSR  .RELATIVE_16  0x63 UNKNOWN_CYCLE_COUNT false false false,
    row "bvc"  .BASE     .BVC  .RELATIVE     0x50 2 false false false,
    row "bvc"  .CBM_CMOS .BVC  .RELATIVE_16  0x53 UNKNOWN_CYCLE_COUNT false false false,
    row "bvs"  .BASE     .BVS  .RELATIVE     0x70 2 false false false,
    row "bvs"  .CBM_CMOS .BVS  .RELATIVE_16  0x73 UNKNOWN_CYCLE_COUNT false false false,
    row "cle"  .CBM_CMOS .CLE  .IMPLIED      0x02 2 false false false,
    row "clc"  .BASE     .CLC  .IMPLIED      0x18 2 false false false,
    row "cld"  .BASE     .CLD  .IMPLIED      0xd8 2 false false false,
    row "cli"  .BASE     .CLI  .IMPLIED      0x58 2 false false false,
    row "clv"  .BASE     .CLV  .IMPLIED      0xb8 2 false false false,
    row "cmp"  .BASE     .CMP  .IMMEDIATE    0xc9 1 false false false,
    row "cmp"  .BASE     .CMP  .ZERO_PAGE    0xc5 1 false false false,
    row "cmp"  .BASE     .CMP  .ZERO_PAGE_X  0xd5 1 false false false,
    row "cmp"  .CMOS     .CMP  .ZP_IND       0xd2 1 false false false,
    row "cmp"  .BASE     .CMP  .ZP_X_IND     0xc1 1 false false false,
    row "cmp"  .BASE     .CMP  .ZP_IND_Y     0xd1 1 true  false false,
    row "cmp"  .BASE     .CMP  .ABSOLUTE     0xcd 1 false false false,
    row "cmp"  .BASE     .CMP  .ABSOLUTE_X   0xdd 1 true  false false,
    row "cmp"  .BASE     .CMP  .ABSOLUTE_Y   0xd9 1 true  false false,
    row "cpx"  .BASE     .CPX  .IMMEDIATE    0xe0 1 false false false,
    row "cpx"  .BASE     .CPX  .ZERO_PAGE    0xe4 1 false false false,
    row "cpx"  .BASE     .CPX  .ABSOLUTE     0xec 1 false false false,
    row "cpy"  .BASE     .CPY  .IMMEDIATE    0xc0 1 false false false,
    row "cpy"  .BASE     .CPY  .ZERO_PAGE    0xc4 1 false false false,
    row "cpy"  .BASE     .CPY  .ABSOLUTE     0xcc 1 false false false,
    row "cpz"  .CBM_CMOS .CPZ  .IMMEDIATE    0xc2 UNKNOWN_CYCLE_COUNT false false false,
    row "cpz"  .CBM_CMOS .CPZ  .ZERO_PAGE    0xd4 UNKNOWN_CYCLE_COUNT false false false,
    row "cpz"  .CBM_CMOS .CPZ  .ABSOLUTE     0xdc UNKNOWN_CYCLE_COUNT false false false,
    row "dec"  .CMOS     .DEC  .ACCUMULATOR  0x3a 2 false false false,
    row "dec"  .BASE     .DEC  .ZERO_PAGE    0xc6 3 false false false,
    row "dec"  .BASE     .DEC  .ZERO_PAGE_X  0xd6 3 false false false,
    row "dec"  .BASE     .DEC  .ABSOLUTE     0xce 3 false false false,
    row "dec"  .BASE     .DEC  .ABSOLUTE_X   0xde 3 true  true  false,
    row "dew"  .CBM_CMOS .DEW  .ZERO_PAGE    0xc3 UNKNOWN_CYCLE_COUNT false false false,
    row "dex"  .BASE     .DEX  .IMPLIED      0xca 2 false false false,
    row "dey"  .BASE     .DEY  .IMPLIED      0x88 2 false false false,
    row "dez"  .CBM_CMOS .DEZ  .IMPLIED      0x3b UNKNOWN_CYCLE_COUNT false false false,
    row "eor"  .BASE     .EOR  .IMMEDIATE    0x49 1 false false false,
    row "eor"  .BASE     .EOR  .ZERO_PAGE    0x45 1 false false false,
    row "eor"  .BASE     .EOR  .ZERO_PAGE_X  0x55 1 false false false,
    row "eor"  .CMOS     .EOR  .ZP_IND       0x52 1 false false false,
    row "eor"  .BASE     .EOR  .ZP_X_IND     0x41 1 false false false,
    row "eor"  .BASE     .EOR  .ZP_IND_Y     0x51 1 true  false false,
    row "eor"  .BASE     .EOR  .ABSOLUTE     0x4d 1 false false false,
    row "eor"  .BASE     .EOR  .ABSOLUTE_X   0x5d 1 true  false false,
    row "eor"  .BASE     .EOR  .ABSOLUTE_Y   0x59 1 true  false false,
    row "inc"  .CMOS     .INC  .ACCUMULATOR  0x1a 2 false false false,
    row "inc"  .BASE     .INC  .ZERO_PAGE    0xe6 3 false false false,
    row "inc"  .BASE     .INC  .ZERO_PAGE_X  0xf6 3 false false false,
    row "inc"  .BASE     .INC  .ABSOLUTE     0xee 3 false false false,
    row "inc"  .BASE     .INC  .ABSOLUTE_X   0xfe 3 true  true  false,
    row "inw"  .CBM_CMOS .INW  .ZERO_PAGE    0xe3 UNKNOWN_CYCLE_COUNT false false false,
    row "inx"  .BASE     .INX  .IMPLIED      0xe8 2 false false false,
    row "iny"  .BASE     .INY  .IMPLIED      0xc8 2 false false false,
    row "inz"  .CBM_CMOS .INZ  .IMPLIED      0x1b UNKNOWN_CYCLE_COUNT false false false,
    row "jmp"  .BASE     .JMP  .ABSOLUTE     0x4c 0 false false false,
    row "jmp"  .BASE     .JMP  .ABSOLUTE_IND 0x6c 0 false false true,
    row "jmp"  .CMOS     .JMP  .ABS_X_IND    0x7c 0 false false true,
    row "jsr"  .BASE     .JSR  .ABSOLUTE     0x20 3 false false false,
    row "jsr"  .CBM_CMOS .JSR  .ABSOLUTE_IND 0x22 UNKNOWN_CYCLE_COUNT false false false,
    row "jsr"  .CBM_CMOS .JSR  .ABS_X_IND    0x23 UNKNOWN_CYCLE_COUNT false false false,
    row "lda"  .BASE     .LDA  .IMMEDIATE    0xa9 1 false false false,
    row "lda"  .BASE     .LDA  .ZERO_PAGE    0xa5 1 false false false,
    row "lda"  .BASE     .LDA  .ZERO_PAGE_X  0xb5 1 false false false,
    row "lda"  .CMOS     .LDA  .ZP_IND       0xb2 1 false false false,
    row "lda"  .BASE     .LDA  .ZP_X_IND     0xa1 1 false false false,
    row "lda"  .BASE     .LDA  .ZP_IND_Y     0xb1 1 true  false false,
    row "lda"  .BASE     .LDA  .ABSOLUTE     0xad 1 false false false,
    row "lda"  .BASE     .LDA  .ABSOLUTE_X   0xbd 1 true  false false,
    row "lda"  .BASE     .LDA  .ABSOLUTE_Y   0xb9 1 true  false false,
    row "lda"  .CBM_CMOS .LDA  .ST_VEC_IND_Y 0xe2 1 false false false,
    row "ldx"  .BASE     .LDX  .IMMEDIATE    0xa2 1 false false false,
    row "ldx"  .BASE     .LDX  .ZERO_PAGE    0xa6 1 false false false,
    row "ldx"  .BASE     .LDX  .ZERO_PAGE_Y  0xb6 1 false false false,
    row "ldx"  .BASE     .LDX  .ABSOLUTE     0xae 1 false false false,
    row "ldx"  .BASE     .LDX  .ABSOLUTE_Y   0xbe 1 true  false false,
    row "ldy"  .BASE     .LDY  .IMMEDIATE    0xa0 1 false false false,
    row "ldy"  .BASE     .LDY  .ZERO_PAGE    0xa4 1 false false false,
    row "ldy"  .BASE     .LDY  .ZERO_PAGE_X  0xb4 1 false false false,
    row "ldy"  .BASE     .LDY  .ABSOLUTE     0xac 1 false false false,
    row "ldy"  .BASE     .LDY  .ABSOLUTE_X   0xbc 1 true  false false,
    row "ldz"  .CBM_CMOS .LDZ  .IMMEDIATE    0xa3 UNKNOWN_CYCLE_COUNT false false false,
    row "ldz"  .CBM_CMOS .LDZ  .ABSOLUTE     0xab UNKNOWN_CYCLE_COUNT false false false,
    row "ldz"  .CBM_CMOS .LDZ  .ABSOLUTE_X   0xbb UNKNOWN_CYCLE_COUNT false false false,
    row "lsr"  .BASE     .LSR  .ACCUMULATOR  0x4a 2 false false false,
    row "lsr"  .BASE     .LSR  .ZERO_PAGE    0x46 3 false false false,
    row "lsr"  .BASE     .LSR  .ZERO_PAGE_X  0x56 3 false false false,
    row "lsr"  .BASE     .LSR  .ABSOLUTE     0x4e 3 false false false,
    row "lsr"  .BASE     .LSR  .ABSOLUTE_X   0x5e 3 true  true  false,
    row "neg"  .CBM_CMOS .NEG  .ACCUMULATOR  0x42 UNKNOWN_CYCLE_COUNT false false false,
    row "nop"  .BASE     .NOP  .IMPLIED      0xea 2 false false false,
    row "ora"  .BASE     .ORA  .IMMEDIATE    0x09 1 false false false,
    row "ora"  .BASE     .ORA  .ZERO_PAGE    0x05 1 false false false,
    row "ora"  .BASE     .ORA  .ZERO_PAGE_X  0x15 1 false false false,
    row "ora"  .CMOS     .ORA  .ZP_IND       0x12 1 false false false,
    row "ora"  .BASE     .ORA  .ZP_X_IND     0x01 1 false false false,
    row "ora"  .BASE     .ORA  .ZP_IND_Y     0x11 1 true  false false,
    row "ora"  .BASE     .ORA  .ABSOLUTE     0x0d 1 false false false,
    row "ora"  .BASE     .ORA  .ABSOLUTE_X   0x1d 1 true  false false,
    row "ora"  .BASE     .ORA  .ABSOLUTE_Y   0x19 1 true  false false,
    row "pha"  .BASE     .PHA  .IMPLIED      0x48 3 false false false,
    row "php"  .BASE     .PHP  .IMPLIED      0x08 3 false false false,
    row "phw"  .CBM_CMOS .PHW  .IMMEDIATE    0xf4 UNKNOWN_CYCLE_COUNT false false false,
    row "phw"  .CBM_CMOS .PHW  .ABSOLUTE     0xfc UNKNOWN_CYCLE_COUNT false false false,
    row "phx"  .CMOS     .PHX  .IMPLIED      0xda 3 false false false,
    row "phy"  .CMOS     .PHY  .IMPLIED      0x5a 3 false false false,
    row "phz"  .CBM_CMOS .PHZ  .IMPLIED      0xdb UNKNOWN_CYCLE_COUNT false false false,
    row "pla"  .BASE     .PLA  .IMPLIED      0x68 4 false false false,
    row "plp"  .BASE     .PLP  .IMPLIED      0x28 4 false false false,
    row "plx"  .CMOS     .PLX  .IMPLIED      0xfa 4 false false false,
    row "ply"  .CMOS     .PLY  .IMPLIED      0x7a 4 false false false,
    row "plz"  .CBM_CMOS .PLZ  .IMPLIED      0xfb UNKNOWN_CYCLE_COUNT false false false,
    row "rmb0" .ROCKWELL .RMB  .ZERO_PAGE    0x07 3 false false false,
    row "rmb1" .ROCKWELL .RMB  .ZERO_PAGE    0x17 3 false false false,
    row "rmb2" .ROCKWELL .RMB  .ZERO_PAGE    0x27 3 false false false,
    row "rmb3" .ROCKWELL .RMB  .ZERO_PAGE    0x37 3 false false false,
    row "rmb4" .ROCKWELL .RMB  .ZERO_PAGE    0x47 3 false false false,
    row "rmb5" .ROCKWELL .RMB  .ZERO_PAGE    0x57 3 false false false,
    row "rmb6" .ROCKWELL .RMB  .ZERO_PAGE    0x67 3 false false false,
    row "rmb7" .ROCKWELL .RMB  .ZERO_PAGE    0x77 3 false false false,
    row "rol"  .BASE     .ROL  .ACCUMULATOR  0x2a 2 false false false,
    row "rol"  .BASE     .ROL  .ZERO_PAGE    0x26 3 false false false,
    row "rol"  .BASE     .ROL  .ZERO_PAGE_X  0x36 3 false false false,
    row "rol"  .BASE     .ROL  .ABSOLUTE     0x2e 3 false false false,
    row "rol"  .BASE     .ROL  .ABSOLUTE_X   0x3e 3 true  true  false,
    row "ror"  .BASE     .ROR  .ACCUMULATOR  0x6a 2 false false false,
    row "ror"  .BASE     .ROR  .ZERO_PAGE    0x66 3 false false false,
    row "ror"  .BASE     .ROR  .ZERO_PAGE_X  0x76 3 false false false,
    row "ror"  .BASE     .ROR  .ABSOLUTE     0x6e 3 false false false,
    row "ror"  .BASE     .ROR  .ABSOLUTE_X   0x7e 3 true  true  false,
    row "row"  .CBM_CMOS .ROW  .ABSOLUTE     0xeb UNKNOWN_CYCLE_COUNT false false false,
    row "rti"  .BASE     .RTI  .IMPLIED      0x40 6 false false false,
    row "rtn"  .CBM_CMOS .RTN  .IMMEDIATE    0x62 UNKNOWN_CYCLE_COUNT false false false,
    row "rts"  .BASE     .RTS  .IMPLIED      0x60 6 false false false,
    row "sbc"  .BASE     .SBC  .IMMEDIATE    0xe9 1 false false false,
    row "sbc"  .BASE     .SBC  .ZERO_PAGE    0xe5 1 false false false,
    row "sbc"  .BASE     .SBC  .ZERO_PAGE_X  0xf5 1 false false false,
    row "sbc"  .CMOS     .SBC  .ZP_IND       0xf2 1 false false false,
    row "sbc"  .BASE     .SBC  .ZP_X_IND     0xe1 1 false false false,
    row "sbc"  .BASE     .SBC  .ZP_IND_Y     0xf1 1 true  false false,
    row "sbc"  .BASE     .SBC  .ABSOLUTE     0xed 1 false false false,
    row "sbc"  .BASE     .SBC  .ABSOLUTE_X   0xfd 1 true  false false,
    row "sbc"  .BASE     .SBC  .ABSOLUTE_Y   0xf9 1 true  false false,
    row "sec"  .BASE     .SEC  .IMPLIED      0x38 2 false false false,
    row "sed"  .BASE     .SED  .IMPLIED      0xf8 2 false false false,
    row "see"  .CBM_CMOS .SEE  .IMPLIED      0x03 UNKNOWN_CYCLE_COUNT false false false,
    row "sei"  .BASE     .SEI  .IMPLIED      0x78 2 false false false,
    row "smb0" .ROCKWELL .SMB  .ZERO_PAGE    0x87 3 false false false,
    row "smb1" .ROCKWELL .SMB  .ZERO_PAGE    0x97 3 false false false,
    row "smb2" .ROCKWELL .SMB  .ZERO_PAGE    0xa7 3 false false false,
    row "smb3" .ROCKWELL .SMB  .ZERO_PAGE    0xb7 3 false false false,
    row "smb4" .ROCKWELL .SMB  .ZERO_PAGE    0xc7 3 false false false,
    row "smb5" .ROCKWELL .SMB  .ZERO_PAGE    0xd7 3 false false false,
    row "smb6" .ROCKWELL .SMB  .ZERO_PAGE    0xe7 3 false false false,
    row "smb7" .ROCKWELL .SMB  .ZERO_PAGE    0xf7 3 false false false,
    row "sta"  .BASE     .STA  .ZERO_PAGE    0x85 1 false false false,
    row "sta"  .BASE     .STA  .ZERO_PAGE_X  0x95 1 false false false,
    row "sta"  .CMOS     .STA  .ZP_IND       0x92 1 false false false,
    row "sta"  .BASE     .STA  .ZP_X_IND     0x81 1 false false false,
    row "sta"  .BASE     .STA  .ZP_IND_Y     0x91 2 false false false,
    row "sta"  .BASE     .STA  .ABSOLUTE     0x8d 1 false false false,
    row "sta"  .BASE     .STA  .ABSOLUTE_X   0x9d 2 false false false,
    row "sta"  .BASE     .STA  .ABSOLUTE_Y   0x99 2 false false false,
    row "sta"  .CBM_CMOS .STA  .ST_VEC_IND_Y 0x82 UNKNOWN_CYCLE_COUNT false false false,
    row "stp"  .WDC_CMOS .STP  .IMPLIED      0xdb UNKNOWN_CYCLE_COUNT false false false,
    row "stx"  .BASE     .STX  .ZERO_PAGE    0x86 1 false false false,
    row "stx"  .BASE     .STX  .ZERO_PAGE_Y  0x96 1 false false false,
    row "stx"  .BASE     .STX  .ABSOLUTE     0x8e 1 false false false,
    row "stx"  .CBM_CMOS .STX  .ABSOLUTE_Y   0x9b UNKNOWN_CYCLE_COUNT false false false,
    row "sty"  .BASE     .STY  .ZERO_PAGE    0x84 1 false false false,
    row "sty"  .BASE     .STY  .ZERO_PAGE_X  0x94 1 false false false,
    row "sty"  .BASE     .STY  .ABSOLUTE     0x8c 1 false false false,
    row "sty"  .CBM_CMOS .STY  .ABSOLUTE_X   0x8b UNKNOWN_CYCLE_COUNT false false false,
    row "stz"  .CMOS     .STZ  .ZERO_PAGE    0x64 1 false false false,
    row "stz"  .CMOS     .STZ  .ZERO_PAGE_X  0x74 1 false false false,
    row "stz"  .CMOS     .STZ  .ABSOLUTE     0x9c 1 false false false,
    row "stz"  .CMOS     .STZ  .ABSOLUTE_X   0x9e 2 false false false,
    row "tab"  .CBM_CMOS .TAB  .IMPLIED      0x5b UNKNOWN_CYCLE_COUNT false false false,
    row "tax"  .BASE     .TAX  .IMPLIED      0xaa 2 false false false,
    row "tay"  .BASE     .TAY  .IMPLIED      0xa8 2 false false false,
    row "taz"  .CBM_CMOS .TAZ  .IMPLIED      0x4b UNKNOWN_CYCLE_COUNT false false false,
    row "tba"  .CBM_CMOS .TBA  .IMPLIED      0x7b UNKNOWN_CYCLE_COUNT false false false,
    row "trb"  .CMOS     .TRB  .ZERO_PAGE    0x14 3 false false false,
    row "trb"  .CMOS     .TRB  .ABSOLUTE     0x1c 3 false false false,
    row "tsb"  .CMOS     .TSB  .ZERO_PAGE    0x04 3 false false false,
    row "tsb"  .CMOS     .TSB  .ABSOLUTE     0x0c 3 false false false,
    row "tsx"  .BASE     .TSX  .IMPLIED      0xba 2 false false false,
    row "tsy"  .CBM_CMOS .TSY  .IMPLIED      0x0b UNKNOWN_CYCLE_COUNT false false false,
    row "txa"  .BASE     .TXA  .IMPLIED      0x8a 2 false false false,
    row "txs"  .BASE     .TXS  .IMPLIED      0x9a 2 false false false,
    row "tya"  .BASE     .TYA  .IMPLIED      0x98 2 false false false,
    row "tys"  .CBM_CMOS .TYS  .IMPLIED      0x2b UNKNOWN_CYCLE_COUNT false false false,
    row "wai"  .WDC_CMOS .WAI  .IMPLIED      0xcb UNKNOWN_CYCLE_COUNT false false false,
    row "tza"  .CBM_CMOS .TZA  .IMPLIED      0x6b UNKNOWN_CYCLE_COUNT false false false ]

/-- Opcode lookup: InstructionSet constructs m_by_opcode by iterating
s_main_table over the rows whose variant set is active; construction
rejects duplicate opcodes, so the first match is the unique match. -/
def lookupOpcode (sets : Sets) (opcode : Nat) : Option Info :=
  s_main_table.find? (fun i => sets.test i.set && i.opcode == opcode)

/-- Interrupt vectors, from CPU6502::Vector. -/
inductive Vector
  | VECTOR_NMI | VECTOR_RESET | VECTOR_IRQ | VECTOR_COP | VECTOR_ABORT
  | VECTOR_NATIVE_COP | VECTOR_NATIVE_BRK | VECTOR_NATIVE_ABORT
  | VECTOR_NATIVE_NMI | VECTOR_NATIVE_IRQ
deriving DecidableEq, Repr

/-- Enum values of CPU6502::Vector. -/
def Vector.addr : Vector → Nat
  | .VECTOR_NMI => 0xfffa
  | .VECTOR_RESET => 0xfffc
  | .VECTOR_IRQ => 0xfffe
  | .VECTOR_COP => 0xfff4
  | .VECTOR_ABORT => 0xfff8
  | .VECTOR_NATIVE_COP => 0xffe4
  | .VECTOR_NATIVE_BRK => 0xffe6
  | .VECTOR_NATIVE_ABORT => 0xffe8
  | .VECTOR_NATIVE_NMI => 0xffea
  | .VECTOR_NATIVE_IRQ => 0xffee

def STACK_BASE_ADDRESS : Nat := 0x0100

/-- CPU state, from class CPU6502.  The four CMOS behaviour toggles
(m_cmos, m_absolute_ind_fixed, m_interrupt_clears_decimal, m_bcd_cmos)
are all initialized from sets.test(CMOS) by the constructor, so they are
derived from the stored variant set here. -/
structure CPU6502 where
  registers : CPU6502Registers
  memory : Memory
  sets : Sets
  m_halt : Bool
  m_instruction_count : Nat
  m_cycle_count : Nat
  m_instruction_cycle_count : Nat

namespace CPU6502

def m_cmos (c : CPU6502) : Bool := c.sets.test .CMOS
def m_absolute_ind_fixed (c : CPU6502) : Bool := c.sets.test .CMOS
def m_interrupt_clears_decimal (c : CPU6502) : Bool := c.sets.test .CMOS
def m_bcd_cmos (c : CPU6502) : Bool := c.sets.test .CMOS

/-- Adds one instruction cycle (m_instruction_cycle_count is uint8). -/
def add_cycle (c : CPU6502) : CPU6502 :=
  { c with m_instruction_cycle_count := (c.m_instruction_cycle_count + 1) % 256 }

/-- CPU6502::halt (diagnostic printing elided): sets m_halt. -/
def halt (c : CPU6502) (_address : Nat) : CPU6502 :=
  { c with m_halt := true }

/-- CPU6502::stack_push: write at 0x0100|S, then S = (S - 1) & 0xff
(S - 1 is modelled as S + 0xff, identical under the & 0xff mask).
The byte parameter is uint8, so the value is truncated on call. -/
def stack_push (c : CPU6502) (byte : Nat) : Option CPU6502 :=
  let byte := byte &&& 0xff
  let addr := STACK_BASE_ADDRESS ||| c.registers.s
  let c := { c with registers := { c.registers with s := (c.registers.s + 0xff) &&& 0xff } }
  match c.memory.write_8 addr byte with
  | some m => some { c with memory := m }
  | none => none

/-- CPU6502::stack_pop: S = (S + 1) & 0xff, then read at 0x0100|S. -/
def stack_pop (c : CPU6502) : Option (Nat × CPU6502) :=
  let c := { c with registers := { c.registers with s := (c.registers.s + 1) &&& 0xff } }
  let addr := STACK_BASE_ADDRESS ||| c.registers.s
  match c.memory.read_8 addr with
  | some v => some (v, c)
  | none => none

/-- CPU6502::go_vector: the reset path just drops S by 3; other vectors
push PC hi/lo and P (bit 5 forced and bit 4 set iff brk, in emulation
mode); then I is set, D is cleared on CMOS, PC is loaded from the vector
word, and PC == 0 sets m_halt. -/
def go_vector (c : CPU6502) (vector : Vector) (brk : Bool) : Option CPU6502 := do
  let c ←
    if vector = Vector.VECTOR_RESET then
      some { c with registers := { c.registers with s := (c.registers.s + 0xfd) &&& 0xff } }
    else do
      let c ← c.stack_push (c.registers.pc >>> 8)
      let c ← c.stack_push (c.registers.pc &&& 0xff)
      let p_value := c.registers.p
      let p_value :=
        if c.registers.e then
          let p_value := p_value ||| (1 <<< Flag.P5.index)
          if brk then p_value ||| (1 <<< Flag.B.index)
          else p_value &&& (0xff ^^^ (1 <<< Flag.B.index))
        else p_value
      c.stack_push p_value
  let c := { c with registers := c.registers.set_i true }
  let c :=
    if c.m_interrupt_clears_decimal then
      { c with registers := c.registers.set_d false }
    else c
  let addr := vector.addr
  let pc ← c.memory.read_16_le addr
  let c := { c with registers := { c.registers with pc := pc % 0x10000 } }
  let c := if c.registers.pc = 0x0000 then { c with m_halt := true } else c
  some c

/-- CPU6502::branch: one extra cycle, one more if the page changes; a
branch to (PC - 2) invokes halt; then PC is set to the target. -/
def branch (c : CPU6502) (address : Nat) : CPU6502 :=
  let c := c.add_cycle
  let c :=
    if (c.registers.pc &&& 0xff00) ≠ (address &&& 0xff00) then c.add_cycle else c
  let c :=
    if address = (c.registers.pc + 0x100000000 - 2) % 0x100000000 then c.halt address else c
  { c with registers := { c.registers with pc := address % 0x10000 } }

/-- Advances PC by one (PC is uint16). -/
def pc_inc (c : CPU6502) : CPU6502 :=
  { c with registers := { c.registers with pc := (c.registers.pc + 1) % 0x10000 } }

/-- Advances PC by two (PC is uint16). -/
def pc_inc2 (c : CPU6502) : CPU6502 :=
  { c with registers := { c.registers with pc := (c.registers.pc + 2) % 0x10000 } }

/-- CPU6502::compute_effective_address, mode by mode from cpu6502.cc.
Returns (ea1, ea2, updated state); ea positions the C++ leaves
uninitialized are returned as 0 (no executor reads them). -/
def compute_effective_address (info : Info) (c : CPU6502) :
    Option (Nat × Nat × CPU6502) := do
  match info.mode with
  | .IMPLIED | .ACCUMULATOR => some (0, 0, c)
  | .IMMEDIATE =>
      let ea1 := c.registers.pc
      some (ea1, 0, c.pc_inc)
  | .ZERO_PAGE =>
      let ea1 ← c.memory.read_8 c.registers.pc
      some (ea1, 0, c.pc_inc)
  | .ZERO_PAGE_X =>
      let temp1 ← c.memory.read_8 c.registers.pc
      let c := c.pc_inc
      some ((temp1 + c.registers.x) &&& 0xff, 0, c)
  | .ZERO_PAGE_Y =>
      let temp1 ← c.memory.read_8 c.registers.pc
      let c := c.pc_inc
      some ((temp1 + c.registers.y) &&& 0xff, 0, c)
  | .ZP_IND =>
      let temp1 ← c.memory.read_8 c.registers.pc
      let c := c.pc_inc
      let lo ← c.memory.read_8 temp1
      let hi ← c.memory.read_8 ((temp1 + 1) &&& 0xff)
      some (lo ||| (hi <<< 8), 0, c)
  | .ZP_X_IND =>
      let temp1 ← c.memory.read_8 c.registers.pc
      let c := c.pc_inc
      let temp1 := (temp1 + c.registers.x) &&& 0xff
      let lo ← c.memory.read_8 temp1
      let hi ← c.memory.read_8 ((temp1 + 1) &&& 0xff)
      some (lo ||| (hi <<< 8), 0, c)
  | .ZP_IND_Y =>
      let temp1 ← c.memory.read_8 c.registers.pc
      let c := c.pc_inc
      let lo ← c.memory.read_8 temp1
      let hi ← c.memory.read_8 ((temp1 + 1) &&& 0xff)
      let temp2 := lo ||| (hi <<< 8)
      let ea1 := temp2 + c.registers.y
      let c :=
        if info.page_crossing_extra_cycle ∧ (ea1 &&& 0xff00) ≠ (temp2 &&& 0xff00) then
          c.add_cycle
        else c
      some (ea1, 0, c)
  | .ABSOLUTE =>
      let ea1 ← c.memory.read_16_le c.registers.pc
      some (ea1, 0, c.pc_inc2)
  | .ABSOLUTE_X =>
      let temp1 ← c.memory.read_16_le c.registers.pc
      let c := c.pc_inc2
      let ea1 := temp1 + c.registers.x
      let c :=
        if ((¬ c.m_cmos) ∧ info.nmos_extra_cycle_forced) ∨
           (info.page_crossing_extra_cycle ∧ (ea1 &&& 0xff00) ≠ (temp1 &&& 0xff00)) then
          c.add_cycle
        else c
      some (ea1, 0, c)
  | .ABSOLUTE_Y =>
      let temp1 ← c.memory.read_16_le c.registers.pc
      let c := c.pc_inc2
      let ea1 := temp1 + c.registers.y
      let c :=
        if info.page_crossing_extra_cycle ∧ (ea1 &&& 0xff00) ≠ (temp1 &&& 0xff00) then
          c.add_cycle
        else c
      some (ea1, 0, c)
  | .ABSOLUTE_IND =>
      let temp1 ← c.memory.read_16_le c.registers.pc
      let c := c.pc_inc2
      let lo ← c.memory.read_8 temp1
      let temp1 :=
        if c.m_absolute_ind_fixed then
          -- CMOS 6502 increments entire address
          temp1 + 1
        else
          -- NMOS 6502 only increments low byte
          (temp1 &&& 0xff00) ||| ((temp1 + 1) &&& 0x00ff)
      let hi ← c.memory.read_8 temp1
      some (lo ||| (hi <<< 8), 0, c)
  | .ABS_X_IND =>
      let temp1 ← c.memory.read_16_le c.registers.pc
      let c := c.pc_inc2
      let temp1 := temp1 + c.registers.x
      let ea1 ← c.memory.read_16_le temp1
      some (ea1, 0, c)
  | .ZP_RELATIVE =>
      let ea1 ← c.memory.read_8 c.registers.pc
      let c := c.pc_inc
      let ea2 ← c.memory.read_8 c.registers.pc
      let c := c.pc_inc
      let ea2 := if ea2 &&& 0x80 ≠ 0 then ea2 ||| 0xff00 else ea2
      some (ea1, (ea2 + c.registers.pc) &&& 0xffff, c)
  | .RELATIVE =>
      let ea2 ← c.memory.read_8 c.registers.pc
      let c := c.pc_inc
      let ea2 := if ea2 &&& 0x80 ≠ 0 then ea2 ||| 0xff00 else ea2
      some (0, (ea2 + c.registers.pc) &&& 0xffff, c)
  | .RELATIVE_16 =>
      let ea2 ← c.memory.read_16_le c.registers.pc
      let c := c.pc_inc
      some (0, (ea2 + c.registers.pc) &&& 0xffff, c)
  | .ST_VEC_IND_Y =>
      let temp1 ← c.memory.read_8 c.registers.pc
      let c := c.pc_inc
      let temp1 := temp1 + 0x0100 + c.registers.s
      let ea1 ← c.memory.read_16_le temp1
      some (ea1, 0, c)

end CPU6502

/-- Helper from cpu6502.cc: sign-extends a BCD high nibble by carrying
bit 3 into the upper bits (static_cast of uint8 to int8). -/
def bcd_digit_sign_extend (digit : Nat) : Int :=
  let digit := digit &&& 0xff
  let t := (digit + (if digit &&& 0x08 ≠ 0 then 0xf0 else 0x00)) % 256
  if t < 128 then (t : Int) else (t : Int) - 256

/-- Wrap of an int expression assigned to a C++ int8_t. -/
def toInt8 (x : Int) : Int := (x + 128) % 256 - 128

namespace CPU6502

/-- CPU6502::execute_ADC, including the Peddle-patent decimal path. -/
def execute_ADC (_info : Info) (ea1 _ea2 : Nat) (c : CPU6502) : Option CPU6502 := do
  let operand ← c.memory.read_8 ea1
  let carry_in := c.registers.test_c
  let ci := if carry_in then 1 else 0
  let binary_result := (c.registers.a + operand + ci) % 0x10000
  let binary_result_7_bit := ((c.registers.a &&& 0x7f) + (operand &&& 0x7f) + ci) % 256
  let binary_carry_8 : Bool := binary_result >>> 8 ≠ 0
  let binary_carry_7 : Bool := binary_result_7_bit >>> 7 ≠ 0
  let binary_result := binary_result &&& 0xff
  let c := { c with registers := c.registers.set_z (binary_result = 0) }
  if ¬ c.registers.test .D then
    let c := { c with registers := c.registers.set_n_z_for_result binary_result }
    let c := { c with registers := c.registers.set_c binary_carry_8 }
    let c := { c with registers := c.registers.set_v (binary_carry_8.xor binary_carry_7) }
    some { c with registers := { c.registers with a := binary_result } }
  else
    -- decimal mode, per US patent 3,991,307 (Peddle et al.)
    let bcd_lsd := ((c.registers.a &&& 0x0f) + (operand &&& 0x0f) + ci) % 256
    let bcd_msd := ((c.registers.a >>> 4) + (operand >>> 4)) % 256
    let bcd_carry_4 : Bool := bcd_lsd > 0x09
    let bcd_lsd := if bcd_carry_4 then (bcd_lsd + 0x06) % 256 else bcd_lsd
    let bcd_msd := if bcd_carry_4 then (bcd_msd + 0x01) % 256 else bcd_msd
    let c :=
      if ¬ c.m_bcd_cmos then
        -- NMOS
        let bcd_partial_result := ((bcd_msd <<< 4) ||| (bcd_lsd &&& 0x0f)) % 256
        let r := c.registers.set_n (bcd_partial_result &&& 0x80 ≠ 0)
        { c with registers := r.set_z (binary_result = 0) }
      else c
    let bcd_signed_msd :=
      toInt8 (bcd_digit_sign_extend (c.registers.a >>> 4) +
              bcd_digit_sign_extend (operand >>> 4) +
              (if bcd_carry_4 then 1 else 0))
    let c := { c with registers := c.registers.set_v (bcd_signed_msd < -8 ∨ bcd_signed_msd > 7) }
    let bcd_msd := if bcd_msd > 0x09 then (bcd_msd + 0x06) % 256 else bcd_msd
    let c := { c with registers := c.registers.set_c (bcd_msd > 0xf) }
    let bcd_result := ((bcd_msd <<< 4) ||| (bcd_lsd &&& 0x0f)) % 256
    let c := { c with registers := { c.registers with a := bcd_result } }
    let c :=
      if c.m_bcd_cmos then
        -- CMOS
        let r := (c.registers.set_n (bcd_result &&& 0x80 ≠ 0)).set_z (bcd_result = 0)
        ({ c with registers := r } : CPU6502).add_cycle
      else c
    some c

def execute_AND (_info : Info) (ea1 _ea2 : Nat) (c : CPU6502) : Option CPU6502 := do
  let operand ← c.memory.read_8 ea1
  let a := c.registers.a &&& operand
  let r := { c.registers with a := a }
  some { c with registers := r.set_n_z_for_result a }

/-- Shared accumulator-or-memory read for the RMW instructions: byte is a
uint8 local, so the accumulator is truncated on load. -/
def rmw_read (info : Info) (ea1 : Nat) (c : CPU6502) : Option Nat :=
  if info.mode = Mode.ACCUMULATOR then some (c.registers.a &&& 0xff)
  else c.memory.read_8 ea1

/-- Shared accumulator-or-memory writeback for the RMW instructions. -/
def rmw_write (info : Info) (ea1 byte : Nat) (c : CPU6502) : Option CPU6502 :=
  if info.mode = Mode.ACCUMULATOR then
    some { c with registers := { c.registers with a := byte } }
  else
    match c.memory.write_8 ea1 byte with
    | some m => some { c with memory := m }
    | none => none

def execute_ASL (info : Info) (ea1 _ea2 : Nat) (c : CPU6502) : Option CPU6502 := do
  let byte ← rmw_read info ea1 c
  let c := { c with registers := c.registers.set_c (byte >>> 7 ≠ 0) }
  let byte := (byte <<< 1) % 256
  let c := { c with registers := c.registers.set_n_z_for_result byte }
  rmw_write info ea1 byte c

def execute_BBR (info : Info) (ea1 ea2 : Nat) (c : CPU6502) : Option CPU6502 := do
  let operand ← c.memory.read_8 ea1
  let bit_num := (info.opcode >>> 4) &&& 7
  if ¬ (((operand >>> bit_num) &&& 1) = 1) then some (c.branch ea2) else some c

def execute_BBS (info : Info) (ea1 ea2 : Nat) (c : CPU6502) : Option CPU6502 := do
  let operand ← c.memory.read_8 ea1
  let bit_num := (info.opcode >>> 4) &&& 7
  if ((operand >>> bit_num) &&& 1) = 1 then some (c.branch ea2) else some c

def execute_BCC (_info : Info) (_ea1 ea2 : Nat) (c : CPU6502) : Option CPU6502 :=
  if ¬ c.registers.test .C then some (c.branch ea2) else some c

def execute_BCS (_info : Info) (_ea1 ea2 : Nat) (c : CPU6502) : Option CPU6502 :=
  if c.registers.test .C then some (c.branch ea2) else some c

def execute_BEQ (_info : Info) (_ea1 ea2 : Nat) (c : CPU6502) : Option CPU6502 :=
  if c.registers.test .Z then some (c.branch ea2) else some c

def execute_BIT (info : Info) (ea1 _ea2 : Nat) (c : CPU6502) : Option CPU6502 := do
  let operand ← c.memory.read_8 ea1
  let result := operand &&& c.registers.a
  let c := { c with registers := c.registers.set_z (result = 0) }
  if info.mode ≠ Mode.IMMEDIATE then
    let r := c.registers.set_n (((operand >>> 7) &&& 1) = 1)
    some { c with registers := r.set_v (((operand >>> 6) &&& 1) = 1) }
  else
    some c

def execute_BMI (_info : Info) (_ea1 ea2 : Nat) (c : CPU6502) : Option CPU6502 :=
  if c.registers.test .N then some (c.branch ea2) else some c

def execute_BNE (_info : Info) (_ea1 ea2 : Nat) (c : CPU6502) : Option CPU6502 :=
  if ¬ c.registers.test .Z then some (c.branch ea2) else some c

def execute_BPL (_info : Info) (_ea1 ea2 : Nat) (c : CPU6502) : Option CPU6502 :=
  if ¬ c.registers.test .N then some (c.branch ea2) else some c

def execute_BRA (_info : Info) (_ea1 ea2 : Nat) (c : CPU6502) : Option CPU6502 :=
  some (c.branch ea2)

def execute_BRK (_info : Info) (_ea1 _ea2 : Nat) (c : CPU6502) : Option CPU6502 :=
  -- BRK is a two-byte instruction
  let c := c.pc_inc
  c.go_vector (if c.registers.e then .VECTOR_IRQ else .VECTOR_NATIVE_BRK) true

def execute_BVC (_info : Info) (_ea1 ea2 : Nat) (c : CPU6502) : Option CPU6502 :=
  if ¬ c.registers.test .V then some (c.branch ea2) else some c

def execute_BVS (_info : Info) (_ea1 ea2 : Nat) (c : CPU6502) : Option CPU6502 :=
  if c.registers.test .V then some (c.branch ea2) else some c

def execute_CLC (_info : Info) (_ea1 _ea2 : Nat) (c : CPU6502) : Option CPU6502 :=
  some { c with registers := c.registers.set_c false }

def execute_CLD (_info : Info) (_ea1 _ea2 : Nat) (c : CPU6502) : Option CPU6502 :=
  some { c with registers := c.registers.set_d false }

def execute_CLI (_info : Info) (_ea1 _ea2 : Nat) (c : CPU6502) : Option CPU6502 :=
  some { c with registers := c.registers.set_i false }

def execute_CLV (_info : Info) (_ea1 _ea2 : Nat) (c : CPU6502) : Option CPU6502 :=
  some { c with registers := c.registers.set_v false }

/-- Shared body of CMP/CPX/CPY: reg + (operand ^ 0xff) + 1. -/
def compare_with (reg : Nat) (ea1 : Nat) (c : CPU6502) : Option CPU6502 := do
  let operand ← c.memory.read_8 ea1
  let operand := operand ^^^ 0xff
  let result := (reg + operand + 1) % 0x10000
  let carry : Bool := ((result >>> 8) &&& 1) = 1
  let result := result &&& 0xff
  let c := { c with registers := c.registers.set_n_z_for_result result }
  some { c with registers := c.registers.set_c carry }

def execute_CMP (_info : Info) (ea1 _ea2 : Nat) (c : CPU6502) : Option CPU6502 :=
  compare_with c.registers.a ea1 c

def execute_CPX (_info : Info) (ea1 _ea2 : Nat) (c : CPU6502) : Option CPU6502 :=
  compare_with c.registers.x ea1 c

def execute_CPY (_info : Info) (ea1 _ea2 : Nat) (c : CPU6502) : Option CPU6502 :=
  compare_with c.registers.y ea1 c

def execute_DEC (info : Info) (ea1 _ea2 : Nat) (c : CPU6502) : Option CPU6502 := do
  let byte ← rmw_read info ea1 c
  let byte := (byte + 0xff) % 256
  let c := { c with registers := c.registers.set_n_z_for_result byte }
  rmw_write info ea1 byte c

def execute_DEX (_info : Info) (_ea1 _ea2 : Nat) (c : CPU6502) : Option CPU6502 :=
  let x := (c.registers.x + 0xff) &&& 0xff
  let r := { c.registers with x := x }
  some { c with registers := r.set_n_z_for_result x }

def execute_DEY (_info : Info) (_ea1 _ea2 : Nat) (c : CPU6502) : Option CPU6502 :=
  let y := (c.registers.y + 0xff) &&& 0xff
  let r := { c.registers with y := y }
  some { c with registers := r.set_n_z_for_result y }

def execute_EOR (_info : Info) (ea1 _ea2 : Nat) (c : CPU6502) : Option CPU6502 := do
  let operand ← c.memory.read_8 ea1
  let a := c.registers.a ^^^ operand
  let r := { c.registers with a := a }
  some { c with registers := r.set_n_z_for_result a }

def execute_INC (info : Info) (ea1 _ea2 : Nat) (c : CPU6502) : Option CPU6502 := do
  let byte ← rmw_read info ea1 c
  let byte := (byte + 1) % 256
  let c := { c with registers := c.registers.set_n_z_for_result byte }
  rmw_write info ea1 byte c

def execute_INX (_info : Info) (_ea1 _ea2 : Nat) (c : CPU6502) : Option CPU6502 :=
  let x := (c.registers.x + 1) &&& 0xff
  let r := { c.registers with x := x }
  some { c with registers := r.set_n_z_for_result x }

def execute_INY (_info : Info) (_ea1 _ea2 : Nat) (c : CPU6502) : Option CPU6502 :=
  let y := (c.registers.y + 1) &&& 0xff
  let r := { c.registers with y := y }
  some { c with registers := r.set_n_z_for_result y }

def execute_JMP (_info : Info) (ea1 _ea2 : Nat) (c : CPU6502) : Option CPU6502 :=
  let c := if ea1 = (c.registers.pc + 0x100000000 - 3) % 0x100000000 then c.halt ea1 else c
  some { c with registers := { c.registers with pc := ea1 % 0x10000 } }

def execute_JSR (_info : Info) (ea1 _ea2 : Nat) (c : CPU6502) : Option CPU6502 := do
  let ret_addr := (c.registers.pc + 0x10000 - 1) % 0x10000
  let c ← c.stack_push (ret_addr >>> 8)
  let c ← c.stack_push (ret_addr &&& 0xff)
  some { c with registers := { c.registers with pc := ea1 % 0x10000 } }

def execute_LDA (_info : Info) (ea1 _ea2 : Nat) (c : CPU6502) : Option CPU6502 := do
  let v ← c.memory.read_8 ea1
  let r := { c.registers with a := v }
  some { c with registers := r.set_n_z_for_result v }

def execute_LDX (_info : Info) (ea1 _ea2 : Nat) (c : CPU6502) : Option CPU6502 := do
  let v ← c.memory.read_8 ea1
  let r := { c.registers with x := v }
  some { c with registers := r.set_n_z_for_result v }

def execute_LDY (_info : Info) (ea1 _ea2 : Nat) (c : CPU6502) : Option CPU6502 := do
  let v ← c.memory.read_8 ea1
  let r := { c.registers with y := v }
  some { c with registers := r.set_n_z_for_result v }

def execute_LSR (info : Info) (ea1 _ea2 : Nat) (c : CPU6502) : Option CPU6502 := do
  let byte ← rmw_read info ea1 c
  let c := { c with registers := c.registers.set_c ((byte &&& 1) = 1) }
  let byte := byte >>> 1
  let c := { c with registers := c.registers.set_n_z_for_result byte }
  rmw_write info ea1 byte c

def execute_NOP (_info : Info) (_ea1 _ea2 : Nat) (c : CPU6502) : Option CPU6502 :=
  some c

def execute_ORA (_info : Info) (ea1 _ea2 : Nat) (c : CPU6502) : Option CPU6502 := do
  let operand ← c.memory.read_8 ea1
  let a := c.registers.a ||| operand
  let r := { c.registers with a := a }
  some { c with registers := r.set_n_z_for_result a }

def execute_PHA (_info : Info) (_ea1 _ea2 : Nat) (c : CPU6502) : Option CPU6502 :=
  c.stack_push c.registers.a

def execute_PHP (_info : Info) (_ea1 _ea2 : Nat) (c : CPU6502) : Option CPU6502 :=
  -- break set, reserved bit set
  c.stack_push (c.registers.p ||| 0x30)

def execute_PHX (_info : Info) (_ea1 _ea2 : Nat) (c : CPU6502) : Option CPU6502 :=
  c.stack_push c.registers.x

def execute_PHY (_info : Info) (_ea1 _ea2 : Nat) (c : CPU6502) : Option CPU6502 :=
  c.stack_push c.registers.y

def execute_PLA (_info : Info) (_ea1 _ea2 : Nat) (c : CPU6502) : Option CPU6502 := do
  let (v, c) ← c.stack_pop
  let r := { c.registers with a := v }
  some { c with registers := r.set_n_z_for_result v }

def execute_PLP (_info : Info) (_ea1 _ea2 : Nat) (c : CPU6502) : Option CPU6502 := do
  let (v, c) ← c.stack_pop
  let p := if c.registers.e then v ||| ((1 <<< Flag.B.index) ||| (1 <<< Flag.P5.index)) else v
  some { c with registers := { c.registers with p := p } }

def execute_PLX (_info : Info) (_ea1 _ea2 : Nat) (c : CPU6502) : Option CPU6502 := do
  let (v, c) ← c.stack_pop
  let r := { c.registers with x := v }
  some { c with registers := r.set_n_z_for_result v }

def execute_PLY (_info : Info) (_ea1 _ea2 : Nat) (c : CPU6502) : Option CPU6502 := do
  let (v, c) ← c.stack_pop
  let r := { c.registers with y := v }
  some { c with registers := r.set_n_z_for_result v }

def execute_RMB (info : Info) (ea1 _ea2 : Nat) (c : CPU6502) : Option CPU6502 := do
  let operand ← c.memory.read_8 ea1
  let bit_num := (info.opcode >>> 4) &&& 7
  let operand := operand &&& (0xff ^^^ (1 <<< bit_num))
  match c.memory.write_8 ea1 operand with
  | some m => some { c with memory := m }
  | none => none

def execute_ROL (info : Info) (ea1 _ea2 : Nat) (c : CPU6502) : Option CPU6502 := do
  let byte ← rmw_read info ea1 c
  let new_carry : Bool := byte >>> 7 ≠ 0
  let byte := (byte <<< 1) % 256
  let byte := byte ||| (if c.registers.test .C then 1 else 0)
  let c := { c with registers := c.registers.set_c new_carry }
  let c := { c with registers := c.registers.set_n_z_for_result byte }
  rmw_write info ea1 byte c

def execute_ROR (info : Info) (ea1 _ea2 : Nat) (c : CPU6502) : Option CPU6502 := do
  let byte ← rmw_read info ea1 c
  let new_carry : Bool := (byte &&& 1) = 1
  let byte := byte >>> 1
  let byte := byte ||| ((if c.registers.test .C then 1 else 0) <<< 7)
  let c := { c with registers := c.registers.set_c new_carry }
  let c := { c with registers := c.registers.set_n_z_for_result byte }
  rmw_write info ea1 byte c

def execute_RTI (_info : Info) (_ea1 _ea2 : Nat) (c : CPU6502) : Option CPU6502 := do
  let (v, c) ← c.stack_pop
  let p := if c.registers.e then v ||| ((1 <<< Flag.B.index) ||| (1 <<< Flag.P5.index)) else v
  let c := { c with registers := { c.registers with p := p } }
  let (lo, c) ← c.stack_pop
  let (hi, c) ← c.stack_pop
  let addr := (lo ||| (hi <<< 8)) % 0x10000
  some { c with registers := { c.registers with pc := addr } }

def execute_RTS (_info : Info) (_ea1 _ea2 : Nat) (c : CPU6502) : Option CPU6502 := do
  let (lo, c) ← c.stack_pop
  let (hi, c) ← c.stack_pop
  let addr := ((lo ||| (hi <<< 8)) + 1) % 0x10000
  some { c with registers := { c.registers with pc := addr } }

def execute_SBC (_info : Info) (ea1 _ea2 : Nat) (c : CPU6502) : Option CPU6502 := do
  let operand ← c.memory.read_8 ea1
  let operand := operand ^^^ 0xff
  let carry_in := c.registers.test_c
  let ci := if carry_in then 1 else 0
  let result := (c.registers.a + operand + ci) % 0x10000
  let result_7_bit := ((c.registers.a &&& 0x7f) + (operand &&& 0x7f) + ci) % 256
  let carry_8 : Bool := ((result >>> 8) &&& 1) = 1
  let carry_7 : Bool := ((result_7_bit >>> 7) &&& 1) = 1
  let result := result &&& 0xff
  let c := { c with registers := c.registers.set_n_z_for_result result }
  let c := { c with registers := c.registers.set_c carry_8 }
  let c := { c with registers := c.registers.set_v (carry_8.xor carry_7) }
  if ¬ c.registers.test .D then
    some { c with registers := { c.registers with a := result } }
  else
    -- see decimal mode comments in execute_ADC()
    let result_4_bit := ((c.registers.a &&& 0x0f) + (operand &&& 0x0f) + ci) % 256
    let carry_4 : Bool := result_4_bit >>> 4 ≠ 0
    let result :=
      if ¬ carry_4 then
        if c.m_bcd_cmos then (result + 0xfa) &&& 0xff
        else (result &&& 0xf0) ||| ((result + 0xfa) &&& 0x0f)
      else result
    let result := if ¬ carry_8 then (result + 0xa0) &&& 0xff else result
    let c :=
      if c.m_bcd_cmos then
        ({ c with registers := c.registers.set_n_z_for_result result } : CPU6502).add_cycle
      else c
    some { c with registers := { c.registers with a := result } }

def execute_SEC (_info : Info) (_ea1 _ea2 : Nat) (c : CPU6502) : Option CPU6502 :=
  some { c with registers := c.registers.set_c true }

def execute_SED (_info : Info) (_ea1 _ea2 : Nat) (c : CPU6502) : Option CPU6502 :=
  some { c with registers := c.registers.set_d true }

def execute_SEI (_info : Info) (_ea1 _ea2 : Nat) (c : CPU6502) : Option CPU6502 :=
  some { c with registers := c.registers.set_i true }

def execute_SMB (info : Info) (ea1 _ea2 : Nat) (c : CPU6502) : Option CPU6502 := do
  let operand ← c.memory.read_8 ea1
  let bit_num := (info.opcode >>> 4) &&& 7
  let operand := operand ||| (1 <<< bit_num)
  match c.memory.write_8 ea1 operand with
  | some m => some { c with memory := m }
  | none => none

def execute_STA (_info : Info) (ea1 _ea2 : Nat) (c : CPU6502) : Option CPU6502 :=
  match c.memory.write_8 ea1 (c.registers.a &&& 0xff) with
  | some m => some { c with memory := m }
  | none => none

def execute_STX (_info : Info) (ea1 _ea2 : Nat) (c : CPU6502) : Option CPU6502 :=
  match c.memory.write_8 ea1 (c.registers.x &&& 0xff) with
  | some m => some { c with memory := m }
  | none => none

def execute_STY (_info : Info) (ea1 _ea2 : Nat) (c : CPU6502) : Option CPU6502 :=
  match c.memory.write_8 ea1 (c.registers.y &&& 0xff) with
  | some m => some { c with memory := m }
  | none => none

def execute_STZ (_info : Info) (ea1 _ea2 : Nat) (c : CPU6502) : Option CPU6502 :=
  match c.memory.write_8 ea1 0x00 with
  | some m => some { c with memory := m }
  | none => none

def execute_TAX (_info : Info) (_ea1 _ea2 : Nat) (c : CPU6502) : Option CPU6502 :=
  let r := { c.registers with x := c.registers.a }
  some { c with registers := r.set_n_z_for_result r.x }

def execute_TAY (_info : Info) (_ea1 _ea2 : Nat) (c : CPU6502) : Option CPU6502 :=
  let r := { c.registers with y := c.registers.a }
  some { c with registers := r.set_n_z_for_result r.y }

def execute_TRB (_info : Info) (ea1 _ea2 : Nat) (c : CPU6502) : Option CPU6502 := do
  let operand ← c.memory.read_8 ea1
  let result := operand &&& (0xff ^^^ (c.registers.a &&& 0xff))
  let c := { c with registers := c.registers.set_z ((c.registers.a &&& operand) = 0) }
  match c.memory.write_8 ea1 result with
  | some m => some { c with memory := m }
  | none => none

def execute_TSB (_info : Info) (ea1 _ea2 : Nat) (c : CPU6502) : Option CPU6502 := do
  let operand ← c.memory.read_8 ea1
  let result := (operand ||| c.registers.a) &&& 0xff
  let c := { c with registers := c.registers.set_z ((c.registers.a &&& operand) = 0) }
  match c.memory.write_8 ea1 result with
  | some m => some { c with memory := m }
  | none => none

def execute_TSX (_info : Info) (_ea1 _ea2 : Nat) (c : CPU6502) : Option CPU6502 :=
  let r := { c.registers with x := c.registers.s }
  some { c with registers := r.set_n_z_for_result r.x }

def execute_TXA (_info : Info) (_ea1 _ea2 : Nat) (c : CPU6502) : Option CPU6502 :=
  let r := { c.registers with a := c.registers.x }
  some { c with registers := r.set_n_z_for_result r.a }

def execute_TXS (_info : Info) (_ea1 _ea2 : Nat) (c : CPU6502) : Option CPU6502 :=
  some { c with registers := { c.registers with s := c.registers.x } }

def execute_TYA (_info : Info) (_ea1 _ea2 : Nat) (c : CPU6502) : Option CPU6502 :=
  let r := { c.registers with a := c.registers.y }
  some { c with registers := r.set_n_z_for_result r.a }

/-- Per-instruction dispatch, from s_execute_inst_fn_ptrs; unimplemented
entries are nullptr in the C++ array. -/
def s_execute_inst_fn_ptrs : Inst → Option (Info → Nat → Nat → CPU6502 → Option CPU6502)
  | .ADC => some execute_ADC
  | .AND => some execute_AND
  | .ASL => some execute_ASL
  | .BBR => some execute_BBR
  | .BBS => some execute_BBS
  | .BCC => some execute_BCC
  | .BCS => some execute_BCS
  | .BEQ => some execute_BEQ
  | .BIT => some execute_BIT
  | .BMI => some execute_BMI
  | .BNE => some execute_BNE
  | .BPL => some execute_BPL
  | .BRA => some execute_BRA
  | .BRK => some execute_BRK
  | .BVC => some execute_BVC
  | .BVS => some execute_BVS
  | .CLC => some execute_CLC
  | .CLD => some execute_CLD
  | .CLI => some execute_CLI
  | .CLV => some execute_CLV
  | .CMP => some execute_CMP
  | .CPX => some execute_CPX
  | .CPY => some execute_CPY
  | .DEC => some execute_DEC
  | .DEX => some execute_DEX
  | .DEY => some execute_DEY
  | .EOR => some execute_EOR
  | .INC => some execute_INC
  | .INX => some execute_INX
  | .INY => some execute_INY
  | .JMP => some execute_JMP
  | .JSR => some execute_JSR
  | .LDA => some execute_LDA
  | .LDX => some execute_LDX
  | .LDY => some execute_LDY
  | .LSR => some execute_LSR
  | .NOP => some execute_NOP
  | .ORA => some execute_ORA
  | .PHA => some execute_PHA
  | .PHP => some execute_PHP
  | .PHX => some execute_PHX
  | .PHY => some execute_PHY
  | .PLA => some execute_PLA
  | .PLP => some execute_PLP
  | .PLX => some execute_PLX
  | .PLY => some execute_PLY
  | .RMB => some execute_RMB
  | .ROL => some execute_ROL
  | .ROR => some execute_ROR
  | .RTI => some execute_RTI
  | .RTS => some execute_RTS
  | .SBC => some execute_SBC
  | .SEC => some execute_SEC
  | .SED => some execute_SED
  | .SEI => some execute_SEI
  | .SMB => some execute_SMB
  | .STA => some execute_STA
  | .STX => some execute_STX
  | .STY => some execute_STY
  | .STZ => some execute_STZ
  | .TAX => some execute_TAX
  | .TAY => some execute_TAY
  | .TRB => some execute_TRB
  | .TSB => some execute_TSB
  | .TSX => some execute_TSX
  | .TXA => some execute_TXA
  | .TXS => some execute_TXS
  | .TYA => some execute_TYA
  | _ => none

/-- CPU6502::execute_instruction: fetch, decode (undefined opcode returns
true without touching the state), charge base plus per-mode and CMOS
cycles, advance PC, compute the effective address, execute, bump the
counters, and return m_halt. -/
def execute_instruction (c : CPU6502) : Option (Bool × CPU6502) := do
  let opcode ← c.memory.read_8 c.registers.pc
  match lookupOpcode c.sets opcode with
  | none => some (true, c)
  | some info =>
    let c := { c with m_instruction_cycle_count :=
      (info.base_cycle_count + address_mode_added_cycles info.mode +
       (if c.m_cmos then (if info.cmos_extra_cycle then 1 else 0) else 0)) % 256 }
    let c := c.pc_inc
    let (ea1, ea2, c) ← c.compute_effective_address info
    let fn ← s_execute_inst_fn_ptrs info.inst
    let c ← fn info ea1 ea2 c
    let c := { c with
      m_instruction_count := c.m_instruction_count + 1,
      m_cycle_count := (c.m_cycle_count + c.m_instruction_cycle_count) % (2 ^ 64) }
    some (c.m_halt, c)

/-- CPU6502::execute_rts: runs the RTS semantics directly (the C++ calls
execute_RTS with a null info pointer, which execute_RTS ignores). -/
def execute_rts (c : CPU6502) : Option CPU6502 :=
  execute_RTS (row "rts" .BASE .RTS .IMPLIED 0x60 6 false false false) 0 0 c

end CPU6502

namespace Apex

def PAGE_SIZE : Nat := 0x100
def SYS_PAGE_ADDRESS : Nat := 0xbf00
def SYS_PAGE_PROGRAM_AREA_SIZE : Nat := 0x50
def EOF_CHARACTER : Nat := 0x1a

def USRMEM : Nat := 0x15
def LINIDX : Nat := 0x5a
def NOWDEV : Nat := 0x5c
def LINPTR : Nat := 0x61

def KRENTR : Nat := 0xd0
def KSAVER : Nat := 0xd3
def KRELOD : Nat := 0xd6
def KHAND : Nat := 0xd9
def KSCAN : Nat := 0xdc
def KRESTD : Nat := 0xdf
def KREAD : Nat := 0xe2
def KWRITE : Nat := 0xe5

def VECTOR_START : Nat := SYS_PAGE_ADDRESS + KRENTR
def VECTOR_END : Nat := SYS_PAGE_ADDRESS + KWRITE + 3

def MAX_CHAR_DEVICE : Nat := 8

end Apex

/-- Character-device capability bundle, from class ApexCharacterDevice:
each method mutates the register file and reports success. -/
structure ApexCharacterDevice where
  open_for_input : CPU6502Registers → Bool × CPU6502Registers
  open_for_output : CPU6502Registers → Bool × CPU6502Registers
  input_byte : CPU6502Registers → Bool × CPU6502Registers
  output_byte : CPU6502Registers → Bool × CPU6502Registers
  close : CPU6502Registers → Bool × CPU6502Registers
  input_byte_available : CPU6502Registers → Bool × CPU6502Registers

/-- ApexNullDevice: input yields the EOF character with success, output
discards; the base-class defaults open and close successfully and report
no input available. -/
def ApexNullDevice : ApexCharacterDevice where
  open_for_input := fun r => (true, r)
  open_for_output := fun r => (true, r)
  input_byte := fun r => (true, { r with a := Apex.EOF_CHARACTER })
  output_byte := fun r => (true, r)
  close := fun r => (true, r)
  input_byte_available := fun r => (false, r)

namespace Apex

/-- Apex::khand, from apex.cc: NOWDEV selects the device, X the function;
on dispatch C is set to the negation of the method result and false (no
halt) is returned; an unknown function, function 0x0f on a device above 1,
or an uninstalled device falls through to the bad-KHAND path and returns
true.  Indexing the 8-entry device array past its end is undefined
behaviour in the C++, modelled as none. -/
def khand (devices : Nat → Option ApexCharacterDevice) (mem : Memory)
    (registers : CPU6502Registers) : Option (Bool × CPU6502Registers) := do
  let function := registers.x &&& 0xff
  let nowdev ← mem.read_8 (SYS_PAGE_ADDRESS + NOWDEV)
  if nowdev < MAX_CHAR_DEVICE then
    match devices nowdev with
    | some dev =>
      if function = 0x00 then
        let (ok, r) := dev.open_for_input registers
        some (false, r.set .C (¬ ok))
      else if function = 0x03 then
        let (ok, r) := dev.open_for_output registers
        some (false, r.set .C (¬ ok))
      else if function = 0x06 then
        let (ok, r) := dev.input_byte registers
        some (false, r.set .C (¬ ok))
      else if function = 0x09 then
        let (ok, r) := dev.output_byte registers
        some (false, r.set .C (¬ ok))
      else if function = 0x0c then
        let (ok, r) := dev.close registers
        some (false, r.set .C (¬ ok))
      else if function = 0x0f then
        if nowdev > 1 then
          some (true, registers)
        else
          let (ok, r) := dev.input_byte_available registers
          some (false, r.set .C (¬ ok))
      else
        some (true, registers)
    | none => some (true, registers)
  else
    none

/-- Apex::vector_exec, from apex.cc: switches on the exact offset
PC - SYS_PAGE_ADDRESS; KRENTR/KSAVER/KRELOD report program exit and halt,
KHAND dispatches byte I/O, KRESTD clears C, KSCAN/KREAD/KWRITE are
unimplemented and halt, and any other offset is an unrecognized entry
vector and halts. -/
def vector_exec (devices : Nat → Option ApexCharacterDevice) (mem : Memory)
    (registers : CPU6502Registers) : Option (Bool × CPU6502Registers) :=
  let off := (registers.pc + 0x100000000 - SYS_PAGE_ADDRESS) % 0x100000000
  if off = KRENTR then some (true, registers)
  else if off = KSAVER then some (true, registers)
  else if off = KRELOD then some (true, registers)
  else if off = KHAND then khand devices mem registers
  else if off = KSCAN then some (true, registers)
  else if off = KRESTD then some (false, registers.set_c false)
  else if off = KREAD then some (true, registers)
  else if off = KWRITE then some (true, registers)
  else some (true, registers)

end Apex

/-- One iteration of the ibex.cc main loop: a PC inside the Apex vector
band dispatches through vector_exec and then synthesizes an RTS;
otherwise one instruction is executed.  Returns the halt indicator. -/
def main_loop_step (devices : Nat → Option ApexCharacterDevice)
    (c : CPU6502) : Option (Bool × CPU6502) :=
  if Apex.VECTOR_START ≤ c.registers.pc ∧ c.registers.pc < Apex.VECTOR_END then do
    let (halt, regs) ← Apex.vector_exec devices c.memory c.registers
    let c := { c with registers := regs }
    let c ← c.execute_rts
    some (halt, c)
  else do
    c.execute_instruction

namespace Memory

/-- Functional model of std::copy from a page slice [src_lo, src_hi) into
the memory bytes starting at base. -/
def copy_range (m : Memory) (page : List Nat) (src_lo src_hi base : Nat) : Memory :=
  { m with m_memory := fun addr =>
      if base ≤ addr ∧ addr < base + (src_hi - src_lo) then
        page.getD (src_lo + (addr - base)) 0
      else m.m_memory addr }

/-- Iteration core of chunk_pages; the fuel argument only bounds the
number of loop iterations (one page consumes at least one element, so the
list length is enough fuel). -/
def chunk_pages_go : Nat → List Nat → List (List Nat)
  | 0, _ => []
  | fuel + 1, file =>
      if Apex.PAGE_SIZE ≤ file.length then
        file.take Apex.PAGE_SIZE :: chunk_pages_go fuel (file.drop Apex.PAGE_SIZE)
      else []

/-- Splits the SAV byte stream into successive full 256-byte pages; the
C++ loop reads a page at a time and a short final read hits EOF first and
is discarded. -/
def chunk_pages (file : List Nat) : List (List Nat) :=
  chunk_pages_go file.length file

/-- Copies successive pages at consecutive 256-byte steps from a base
address (the non-first-page arm of the Memory::load_apex_sav loop). -/
def load_pages (m : Memory) (address : Nat) : List (List Nat) → Memory
  | [] => m
  | page :: rest =>
      load_pages (m.copy_range page 0 Apex.PAGE_SIZE address) (address + Apex.PAGE_SIZE) rest

/-- Memory::load_apex_sav, from memory.cc: the first page's first 0x50
bytes go to the system page program area at 0xBF00, the rest to 0x0050
onward; the 16-bit word now at 0xBF00+USRMEM selects the base for the
remaining pages, copied sequentially until EOF. -/
def load_apex_sav (m : Memory) (file : List Nat) : Option Memory :=
  match chunk_pages file with
  | [] => some m
  | page :: rest => do
      let m := m.copy_range page 0 Apex.SYS_PAGE_PROGRAM_AREA_SIZE Apex.SYS_PAGE_ADDRESS
      let m := m.copy_range page Apex.SYS_PAGE_PROGRAM_AREA_SIZE Apex.PAGE_SIZE
                 Apex.SYS_PAGE_PROGRAM_AREA_SIZE
      let address ← m.read_16_le (Apex.SYS_PAGE_ADDRESS + Apex.USRMEM)
      some (load_pages m address rest)

end Memory

/-! ### Basic lemmas about the register file and memory -/

namespace CPU6502Registers

theorem test_eq_testBit (r : CPU6502Registers) (fl : Flag) :
    r.test fl = r.p.testBit fl.index := by
  have hle : r.p >>> fl.index &&& 1 ≤ 1 := Nat.and_le_right
  simp only [test, Nat.testBit, Nat.and_comm 1]
  generalize r.p >>> fl.index &&& 1 = k at hle
  interval_cases k <;> simp

theorem test_set (r : CPU6502Registers) (fl fl2 : Flag) (v : Bool) :
    (r.set fl v).test fl2 = if fl2 = fl then v else r.test fl2 := by
  cases v <;>
    cases fl <;> cases fl2 <;>
      simp [set, test_eq_testBit, Flag.index, Nat.testBit_or, Nat.testBit_and,
            Nat.testBit_xor] <;>
      simp [Nat.testBit]

theorem test_set_self (r : CPU6502Registers) (fl : Flag) (v : Bool) :
    (r.set fl v).test fl = v := by
  simp [test_set]

theorem test_set_ne (r : CPU6502Registers) (fl fl2 : Flag) (v : Bool) (h : fl2 ≠ fl) :
    (r.set fl v).test fl2 = r.test fl2 := by
  simp [test_set, h]

@[simp] theorem set_a (r : CPU6502Registers) (fl : Flag) (v : Bool) : (r.set fl v).a = r.a := by
  cases v <;> simp [set]

@[simp] theorem set_x (r : CPU6502Registers) (fl : Flag) (v : Bool) : (r.set fl v).x = r.x := by
  cases v <;> simp [set]

@[simp] theorem set_y (r : CPU6502Registers) (fl : Flag) (v : Bool) : (r.set fl v).y = r.y := by
  cases v <;> simp [set]

@[simp] theorem set_s (r : CPU6502Registers) (fl : Flag) (v : Bool) : (r.set fl v).s = r.s := by
  cases v <;> simp [set]

@[simp] theorem set_pc (r : CPU6502Registers) (fl : Flag) (v : Bool) : (r.set fl v).pc = r.pc := by
  cases v <;> simp [set]

@[simp] theorem set_e (r : CPU6502Registers) (fl : Flag) (v : Bool) : (r.set fl v).e = r.e := by
  cases v <;> simp [set]

@[simp] theorem set_n_z_a (r : CPU6502Registers) (v : Nat) :
    (r.set_n_z_for_result v).a = r.a := by simp [set_n_z_for_result, set_n, set_z]

@[simp] theorem set_n_z_x (r : CPU6502Registers) (v : Nat) :
    (r.set_n_z_for_result v).x = r.x := by simp [set_n_z_for_result, set_n, set_z]

@[simp] theorem set_n_z_y (r : CPU6502Registers) (v : Nat) :
    (r.set_n_z_for_result v).y = r.y := by simp [set_n_z_for_result, set_n, set_z]

@[simp] theorem set_n_z_s (r : CPU6502Registers) (v : Nat) :
    (r.set_n_z_for_result v).s = r.s := by simp [set_n_z_for_result, set_n, set_z]

@[simp] theorem set_n_z_pc (r : CPU6502Registers) (v : Nat) :
    (r.set_n_z_for_result v).pc = r.pc := by simp [set_n_z_for_result, set_n, set_z]

@[simp] theorem set_n_z_e (r : CPU6502Registers) (v : Nat) :
    (r.set_n_z_for_result v).e = r.e := by simp [set_n_z_for_result, set_n, set_z]

end CPU6502Registers

namespace Memory

theorem write_8_eq_some {m : Memory} {addr data : Nat} (h : addr < m.size) :
    m.write_8 addr data =
      some { m with m_memory := fun a => if a = addr then data else m.m_memory a } := by
  simp [write_8, h]

theorem read_8_eq_some {m : Memory} {addr : Nat} (h : addr < m.size) :
    m.read_8 addr = some (m.m_memory addr) := by
  simp [read_8, h]

theorem read_8_eq_none {m : Memory} {addr : Nat} (h : ¬ addr < m.size) :
    m.read_8 addr = none := by
  simp [read_8, h]

theorem write_8_eq_none {m : Memory} {addr data : Nat} (h : ¬ addr < m.size) :
    m.write_8 addr data = none := by
  simp [write_8, h]

end Memory

/-! ### Concrete machine fixtures for the end-to-end scenarios -/

/-- A 64 KiB memory whose contents are given by an association list
(all other cells are zero), as the emulator creates with size 1<<16. -/
def mkMemory (l : List (Nat × Nat)) : Memory :=
  ⟨0x10000, fun a => ((l.find? (fun p => p.1 == a)).map Prod.snd).getD 0⟩

/-- A CPU in the initial state the emulator sets up before entry
(A=X=Y=0, S=0xFF), with a chosen status byte and entry PC. -/
def mkCPU (sets : Sets) (mem : Memory) (pc p : Nat) : CPU6502 :=
  { registers := { a := 0, x := 0, y := 0, s := 0xff, pc := pc, p := p, e := true },
    memory := mem, sets := sets, m_halt := false,
    m_instruction_count := 0, m_cycle_count := 0, m_instruction_cycle_count := 0 }

/-- Machine about to execute LDA $FFFF,X with X = 1. -/
def ldaAbsXOverflowCPU : CPU6502 :=
  let c := mkCPU CPU_6502 (mkMemory [(0, 0xbd), (1, 0xff), (2, 0xff)]) 0 0x34
  { c with registers := { c.registers with x := 1 } }

/-! ### C10: indexed effective addresses are unmasked and bounds-checked -/

/-- C10: effective addresses for ABSOLUTE_X, ABSOLUTE_Y and ZP_IND_Y are
the untruncated base + index sums, and an address past the 64 KiB array
makes read_8 and write_8 fail rather than wrap to low memory; in
particular LDA $FFFF,X with X = 1 aborts execution with an error. -/
theorem C10_indexed_ea_unmasked_and_bounds_checked :
    (∀ (c c1 : CPU6502) (info : Info) (base ea1 ea2 : Nat),
       info.mode = Mode.ABSOLUTE_X →
       c.memory.read_16_le c.registers.pc = some base →
       c.compute_effective_address info = some (ea1, ea2, c1) →
       ea1 = base + c.registers.x ∧
       (c.memory.size = 0x10000 → 0xffff < ea1 →
         c.memory.read_8 ea1 = none ∧ ∀ d, c.memory.write_8 ea1 d = none)) ∧
    (∀ (c c1 : CPU6502) (info : Info) (base ea1 ea2 : Nat),
       info.mode = Mode.ABSOLUTE_Y →
       c.memory.read_16_le c.registers.pc = some base →
       c.compute_effective_address info = some (ea1, ea2, c1) →
       ea1 = base + c.registers.y ∧
       (c.memory.size = 0x10000 → 0xffff < ea1 →
         c.memory.read_8 ea1 = none ∧ ∀ d, c.memory.write_8 ea1 d = none)) ∧
    (∀ (c c1 : CPU6502) (info : Info) (z lo hi ea1 ea2 : Nat),
       info.mode = Mode.ZP_IND_Y →
       c.memory.read_8 c.registers.pc = some z →
       c.memory.read_8 z = some lo →
       c.memory.read_8 ((z + 1) &&& 0xff) = some hi →
       c.compute_effective_address info = some (ea1, ea2, c1) →
       ea1 = (lo ||| (hi <<< 8)) + c.registers.y ∧
       (c.memory.size = 0x10000 → 0xffff < ea1 →
         c.memory.read_8 ea1 = none ∧ ∀ d, c.memory.write_8 ea1 d = none)) ∧
    CPU6502.execute_instruction ldaAbsXOverflowCPU = none := by
  refine ⟨?_, ?_, ?_, ?_⟩
  · intro c c1 info base ea1 ea2 hmode hread heq
    simp only [CPU6502.compute_effective_address, hmode, hread, Option.bind_eq_bind,
      Option.some_bind, CPU6502.pc_inc2, CPU6502.add_cycle] at heq
    split at heq <;>
    · simp only [Option.some.injEq, Prod.mk.injEq] at heq
      obtain ⟨h1, _h2, _h3⟩ := heq
      subst h1
      refine ⟨by simp, fun hsize hover => ?_⟩
      refine ⟨Memory.read_8_eq_none (by rw [hsize]; omega),
        fun d => Memory.write_8_eq_none (by rw [hsize]; omega)⟩
  · intro c c1 info base ea1 ea2 hmode hread heq
    simp only [CPU6502.compute_effective_address, hmode, hread, Option.bind_eq_bind,
      Option.some_bind, CPU6502.pc_inc2, CPU6502.add_cycle] at heq
    split at heq <;>
    · simp only [Option.some.injEq, Prod.mk.injEq] at heq
      obtain ⟨h1, _h2, _h3⟩ := heq
      subst h1
      refine ⟨by simp, fun hsize hover => ?_⟩
      refine ⟨Memory.read_8_eq_none (by rw [hsize]; omega),
        fun d => Memory.write_8_eq_none (by rw [hsize]; omega)⟩
  · intro c c1 info z lo hi ea1 ea2 hmode hz hlo hhi heq
    simp only [CPU6502.compute_effective_address, hmode, hz, Option.bind_eq_bind,
      Option.some_bind, CPU6502.pc_inc, CPU6502.add_cycle] at heq
    simp only [hlo, hhi, Option.some_bind] at heq
    split at heq <;>
    · simp only [Option.some.injEq, Prod.mk.injEq] at heq
      obtain ⟨h1, _h2, _h3⟩ := heq
      subst h1
      refine ⟨by simp, fun hsize hover => ?_⟩
      refine ⟨Memory.read_8_eq_none (by rw [hsize]; omega),
        fun d => Memory.write_8_eq_none (by rw [hsize]; omega)⟩
  · rfl

/-- C10 witness: a concrete ABSOLUTE_X overflow discharging the
hypotheses of the universal part at base 0xFFFF, X = 1. -/
theorem C10_witness :
    ldaAbsXOverflowCPU.pc_inc.memory.read_8 0x10000 = none := by
  have h := C10_indexed_ea_unmasked_and_bounds_checked.1
    ldaAbsXOverflowCPU.pc_inc _
    (row "lda" .BASE .LDA .ABSOLUTE_X 0xbd 1 true false false)
    0xffff 0x10000 0 rfl (by rfl) rfl
  exact (h.2 (by rfl) (by norm_num)).1

/-! ### C4: JMP ($12FF) page-wrap scenario -/

/-- Memory of the page-wrap scenario: 12 34 at 0x1200..0x1201, CD at
0x12FF, 34 at 0x1300, and JMP ($12FF) at 0x0400. -/
def jmpIndMemory : Memory :=
  mkMemory [(0x400, 0x6c), (0x401, 0xff), (0x402, 0x12),
            (0x1200, 0x12), (0x1201, 0x34), (0x12ff, 0xcd), (0x1300, 0x34)]

/-- C4 counterexample: with the scenario memory, the CMOS execution of
JMP ($12FF) loads the low byte from 0x12FF (0xCD) and the high byte from
0x1300 (0x34), so PC becomes 0x34CD, not the 0x3456 the claim states. -/
theorem C4_counterexample :
    ((mkCPU CPU_R65C02 jmpIndMemory 0x400 0x34).execute_instruction).map
        (fun p => p.2.registers.pc) = some 0x34cd ∧ (0x34cd : Nat) ≠ 0x3456 :=
  ⟨rfl, by norm_num⟩

/-- C4 (amended): with 0x12 at 0x1200, 0x34 at 0x1201, 0xCD at 0x12FF and
0x34 at 0x1300, executing JMP ($12FF) leaves PC = 0x12CD on NMOS (high
byte from 0x1200, the page-wrap bug) and PC = 0x34CD on CMOS (high byte
from 0x1300, low byte still from 0x12FF). -/
theorem C4_jmp_indirect_page_wrap :
    ((mkCPU CPU_6502 jmpIndMemory 0x400 0x34).execute_instruction).map
        (fun p => (p.1, p.2.registers.pc)) = some (false, 0x12cd) ∧
    ((mkCPU CPU_R65C02 jmpIndMemory 0x400 0x34).execute_instruction).map
        (fun p => (p.1, p.2.registers.pc)) = some (false, 0x34cd) :=
  ⟨rfl, rfl⟩

/-! ### C6: stack round trip and PHA/PLA -/

theorem and_255 (x : Nat) : x &&& 0xff = x % 0x100 :=
  Nat.and_pow_two_sub_one_eq_mod x 8

theorem and_65535 (x : Nat) : x &&& 0xffff = x % 0x10000 :=
  Nat.and_pow_two_sub_one_eq_mod x 16

theorem stack_addr_lt {s : Nat} (h : s < 0x100) : STACK_BASE_ADDRESS ||| s < 0x10000 := by
  have : (0x100 : Nat) ||| s < 2 ^ 16 := Nat.or_lt_two_pow (by norm_num) (by omega)
  simpa [STACK_BASE_ADDRESS] using this

theorem decide_shift_and_eq_testBit (x i : Nat) :
    (decide (x >>> i &&& 1 = 1)) = x.testBit i := by
  have hle : x >>> i &&& 1 ≤ 1 := Nat.and_le_right
  simp only [Nat.testBit, Nat.and_comm 1]
  generalize x >>> i &&& 1 = k at hle
  interval_cases k <;> simp

/-- The memory after stack_push writes a byte at 0x0100|S. -/
def pushedMemory (c : CPU6502) (b : Nat) : Memory :=
  { c.memory with m_memory := fun a =>
      if a = STACK_BASE_ADDRESS ||| c.registers.s then b &&& 0xff
      else c.memory.m_memory a }

theorem stack_push_eq (c : CPU6502) (b : Nat)
    (h : STACK_BASE_ADDRESS ||| c.registers.s < c.memory.size) :
    c.stack_push b = some { c with
      registers := { c.registers with s := (c.registers.s + 0xff) &&& 0xff },
      memory := pushedMemory c b } := by
  simp only [CPU6502.stack_push, pushedMemory]
  rw [Memory.write_8_eq_some h]

theorem stack_pop_eq (c : CPU6502)
    (h : STACK_BASE_ADDRESS ||| ((c.registers.s + 1) &&& 0xff) < c.memory.size) :
    c.stack_pop = some
      (c.memory.m_memory (STACK_BASE_ADDRESS ||| ((c.registers.s + 1) &&& 0xff)),
       { c with registers := { c.registers with s := (c.registers.s + 1) &&& 0xff } }) := by
  simp only [CPU6502.stack_pop]
  rw [Memory.read_8_eq_some h]

/-- C6: pushing a byte and popping returns that byte with S restored; and
executing PHA then PLA leaves A and S (indeed every register) unchanged,
setting Z and N from the popped value and no other flag. -/
theorem C6_stack_push_pop_round_trip :
    (∀ (c : CPU6502) (b : Nat),
       c.registers.s < 0x100 → b < 0x100 → c.memory.size = 0x10000 →
       ∃ c1 c2, c.stack_push b = some c1 ∧ c1.stack_pop = some (b, c2) ∧
         c2.registers = c.registers) ∧
    (∀ (c c1 c2 : CPU6502) (i1 i2 : Info) (e1 e2 e3 e4 : Nat),
       c.registers.s < 0x100 → c.registers.a < 0x100 → c.memory.size = 0x10000 →
       CPU6502.execute_PHA i1 e1 e2 c = some c1 →
       CPU6502.execute_PLA i2 e3 e4 c1 = some c2 →
       c2.registers.a = c.registers.a ∧
       c2.registers.s = c.registers.s ∧
       c2.registers.x = c.registers.x ∧
       c2.registers.y = c.registers.y ∧
       c2.registers.pc = c.registers.pc ∧
       c2.registers.test .Z = (c.registers.a = 0) ∧
       c2.registers.test .N = c.registers.a.testBit 7 ∧
       (∀ fl, fl ≠ Flag.Z → fl ≠ Flag.N → c2.registers.test fl = c.registers.test fl)) := by
  have key : ∀ (c : CPU6502) (b : Nat),
      c.registers.s < 0x100 → b < 0x100 → c.memory.size = 0x10000 →
      ∃ c1 c2, c.stack_push b = some c1 ∧ c1.stack_pop = some (b, c2) ∧
        c2.registers = c.registers := by
    intro c b hs hb hsize
    obtain ⟨⟨ra, rx, ry, rs, rpc, rp, re⟩, mem, sets0, mh, mic, mcc, micc⟩ := c
    simp only at hs hsize ⊢
    have haddr : STACK_BASE_ADDRESS ||| rs < mem.size := by
      rw [hsize]; exact stack_addr_lt hs
    have hpush := stack_push_eq
      ⟨⟨ra, rx, ry, rs, rpc, rp, re⟩, mem, sets0, mh, mic, mcc, micc⟩ b haddr
    simp only [pushedMemory] at hpush
    have hsback : (((rs + 0xff) &&& 0xff) + 1) &&& 0xff = rs := by
      simp only [and_255]; omega
    have hb255 : b &&& 0xff = b := by rw [and_255]; omega
    refine ⟨_,
      { registers := ⟨ra, rx, ry, rs, rpc, rp, re⟩,
        memory := { size := mem.size,
                    m_memory := fun a =>
                      if a = STACK_BASE_ADDRESS ||| rs then b &&& 0xff else mem.m_memory a },
        sets := sets0, m_halt := mh, m_instruction_count := mic,
        m_cycle_count := mcc, m_instruction_cycle_count := micc },
      hpush, ?_, rfl⟩
    rw [stack_pop_eq
      { registers := ⟨ra, rx, ry, (rs + 0xff) &&& 0xff, rpc, rp, re⟩,
        memory := { size := mem.size,
                    m_memory := fun a =>
                      if a = STACK_BASE_ADDRESS ||| rs then b &&& 0xff else mem.m_memory a },
        sets := sets0, m_halt := mh, m_instruction_count := mic,
        m_cycle_count := mcc, m_instruction_cycle_count := micc }
      (show STACK_BASE_ADDRESS ||| ((((rs + 0xff) &&& 0xff) + 1) &&& 0xff) < mem.size by
        rw [hsback, hsize]; exact stack_addr_lt hs)]
    simp only [hsback, eq_self_iff_true, if_true, hb255]
  refine ⟨key, ?_⟩
  intro c c1 c2 i1 i2 e1 e2 e3 e4 hs ha hsize hpha hpla
  obtain ⟨d1, d2, hpush, hpop, hregs⟩ := key c c.registers.a hs ha hsize
  simp only [CPU6502.execute_PHA] at hpha
  rw [hpush] at hpha
  obtain rfl : d1 = c1 := by injection hpha
  simp only [CPU6502.execute_PLA, Option.bind_eq_bind] at hpla
  rw [hpop] at hpla
  simp only [Option.some_bind, Option.some.injEq] at hpla
  subst hpla
  refine ⟨by simp, by simp [hregs], by simp [hregs], by simp [hregs], by simp [hregs], ?_, ?_, ?_⟩
  · simp only [CPU6502Registers.set_n_z_for_result, CPU6502Registers.set_n,
      CPU6502Registers.set_z]
    rw [CPU6502Registers.test_set_ne _ Flag.N Flag.Z _ (by decide),
      CPU6502Registers.test_set_self]
    simp
  · simp only [CPU6502Registers.set_n_z_for_result, CPU6502Registers.set_n,
      CPU6502Registers.set_z]
    rw [CPU6502Registers.test_set_self]
    exact decide_shift_and_eq_testBit c.registers.a 7
  · intro fl hz hn
    simp only [CPU6502Registers.set_n_z_for_result, CPU6502Registers.set_n,
      CPU6502Registers.set_z]
    rw [CPU6502Registers.test_set_ne _ Flag.N fl _ hn,
      CPU6502Registers.test_set_ne _ Flag.Z fl _ hz]
    simp [CPU6502Registers.test, hregs]

/-- Machine with A = 0x42 for the PHA/PLA scenario. -/
def phaPlaCPU : CPU6502 :=
  let c := mkCPU CPU_6502 (mkMemory []) 0x400 0x34
  { c with registers := { c.registers with a := 0x42 } }

/-! ### C1 and C2: decimal-mode ADC -/

/-- Runs a number of instructions in sequence. -/
def steps (c : CPU6502) : Nat → Option CPU6502
  | 0 => some c
  | n + 1 => (c.execute_instruction).bind fun p => steps p.2 n

/-- Modelled from the spec: sign extension of a BCD high nibble, carrying
bit 3 into bit 7. -/
def signExt4 (d : Nat) : Int :=
  if d &&& 0x8 ≠ 0 then (d : Int) - 16 else (d : Int)

/-- Modelled from the spec: the Peddle-patent BCD add decomposition of
claim C1, computing (A, C, V) for a decimal-mode add. -/
def peddleAdc (a m : Nat) (c : Bool) : Nat × Bool × Bool :=
  let ci := if c then 1 else 0
  let lo := (a &&& 0x0f) + (m &&& 0x0f) + ci
  let carry4 : Bool := lo > 9
  let lo := if carry4 then lo + 6 else lo
  let hi := (a >>> 4) + (m >>> 4) + (if carry4 then 1 else 0)
  let signed_hi := signExt4 (a >>> 4) + signExt4 (m >>> 4) + (if carry4 then 1 else 0)
  let v : Bool := signed_hi < -8 ∨ signed_hi > 7
  let hi := if hi > 9 then hi + 6 else hi
  let carry : Bool := hi > 0xf
  (((hi <<< 4) ||| (lo &&& 0x0f)) &&& 0xff, carry, v)

/-- Program F8 A9 58 69 46 (SED; LDA #$58; ADC #$46) at 0x0400, C clear. -/
def bcdCarryCPU (sets : Sets) : CPU6502 :=
  mkCPU sets (mkMemory [(0x400, 0xf8), (0x401, 0xa9), (0x402, 0x58),
                        (0x403, 0x69), (0x404, 0x46)]) 0x400 0x34

/-- Program F8 A9 19 69 28 (SED; LDA #$19; ADC #$28) at 0x0400, C clear. -/
def bcdAddCPU (sets : Sets) : CPU6502 :=
  mkCPU sets (mkMemory [(0x400, 0xf8), (0x401, 0xa9), (0x402, 0x19),
                        (0x403, 0x69), (0x404, 0x28)]) 0x400 0x34

/-- C6 witness: pushing byte 0xAB at S = 0xFF and popping returns 0xAB
with S restored to 0xFF. -/
theorem C6_witness :
    ((phaPlaCPU.stack_push 0xab).bind CPU6502.stack_pop).map
        (fun p => (p.1, p.2.registers.s)) = some (0xab, 0xff) := by
  obtain ⟨c1, c2, h1, h2, h3⟩ :=
    C6_stack_push_pop_round_trip.1 phaPlaCPU 0xab (by decide) (by decide) rfl
  rw [h1]
  simp only [Option.some_bind]
  rw [h2]
  simp [h3]
  rfl

/-- Reading a flag only looks at P, so replacing every other field of the
register file leaves the flag unchanged. -/
theorem test_mk_p (a x y s pc : Nat) (e : Bool) (r : CPU6502Registers) (fl : Flag) :
    CPU6502Registers.test ⟨a, x, y, s, pc, r.p, e⟩ fl = r.test fl := rfl

theorem signExt4_bounds (d : Nat) (h : d < 16) : -8 ≤ signExt4 d ∧ signExt4 d ≤ 7 := by
  interval_cases d <;> decide

theorem bcd_sign_eq (d : Nat) (h : d < 16) : bcd_digit_sign_extend d = signExt4 d := by
  interval_cases d <;> decide

theorem toInt8_eq (x : Int) (h1 : -128 ≤ x) (h2 : x < 128) : toInt8 x = x := by
  unfold toInt8; omega

theorem shr4_lt (x : Nat) (h : x < 256) : x >>> 4 < 16 := by
  rw [Nat.shiftRight_eq_div_pow]; omega

/-- Catalog row for ADC immediate. -/
def adcImmInfo : Info := row "ADC" ISet.BASE Inst.ADC Mode.IMMEDIATE 0x69 2 false false true

/-- Machine in decimal mode (P = 0x08) with A = 0x58 and operand byte
0x46 at address 0. -/
def c1AdcIn : CPU6502 :=
  { registers := { a := 0x58, x := 0, y := 0, s := 0xff, pc := 0x1000, p := 0x08, e := true },
    memory := mkMemory [(0, 0x46)], sets := CPU_6502, m_halt := false,
    m_instruction_count := 0, m_cycle_count := 0, m_instruction_cycle_count := 0 }

/-- The machine c1AdcIn after ADC: A = 0x04, P = 0xC9 (N, V, C set). -/
def c1AdcOut : CPU6502 :=
  { registers := { a := 0x04, x := 0, y := 0, s := 0xff, pc := 0x1000, p := 0xc9, e := true },
    memory := mkMemory [(0, 0x46)], sets := CPU_6502, m_halt := false,
    m_instruction_count := 0, m_cycle_count := 0, m_instruction_cycle_count := 0 }

/-- C1: for every accumulator value, operand and incoming carry, a
decimal-mode ADC computes A, C and V by the Peddle-patent decomposition
(low-nibble sum with +6 correction on carry4, high-nibble sum with carry4
folded in, V from the signed high nibbles, +6 high correction when hi > 9,
C = hi > 0xF, A = ((hi << 4) | (lo & 0x0F)) & 0xFF); and concretely
SED; LDA #$58; ADC #$46 with carry clear ends with A = 0x04 and C = 1. -/
theorem C1_adc_decimal_peddle :
    (∀ (c c2 : CPU6502) (info : Info) (ea1 ea2 m : Nat),
      c.registers.test .D = true →
      c.registers.a < 0x100 →
      c.memory.read_8 ea1 = some m → m < 0x100 →
      CPU6502.execute_ADC info ea1 ea2 c = some c2 →
      c2.registers.a = (peddleAdc c.registers.a m (c.registers.test_c)).1 ∧
      c2.registers.test .C = (peddleAdc c.registers.a m (c.registers.test_c)).2.1 ∧
      c2.registers.test .V = (peddleAdc c.registers.a m (c.registers.test_c)).2.2) ∧
    (steps (bcdCarryCPU CPU_6502) 3).map
        (fun c => (c.registers.a, c.registers.test .C)) = some (0x04, true) := by
  constructor
  · intro c c2 info ea1 ea2 m hD ha hread hm hexec
    obtain ⟨⟨ra, rx, ry, rs, rpc, rp, re⟩, mem, sets0, mh, mic, mcc, micc⟩ := c
    have hD' : CPU6502Registers.test ⟨ra, rx, ry, rs, rpc, rp, re⟩ .D = true := hD
    have ha' : ra < 256 := ha
    unfold CPU6502.execute_ADC at hexec
    rw [hread] at hexec
    simp only [Option.bind_eq_bind, Option.some_bind] at hexec
    dsimp only at hexec ⊢
    generalize htc : CPU6502Registers.test_c ⟨ra, rx, ry, rs, rpc, rp, re⟩ = tc at hexec ⊢
    generalize hz : (decide ((ra + m + (if tc = true then 1 else 0)) % 65536 &&& 255 = 0)) = z
      at hexec
    clear hD ha hread htc hz
    cases hcmos : sets0.test ISet.CMOS <;>
      simp only [CPU6502.m_bcd_cmos, CPU6502.add_cycle, hcmos,
        CPU6502Registers.set_z, CPU6502Registers.set_c, CPU6502Registers.set_v,
        CPU6502Registers.set_n, CPU6502Registers.set_n_z_for_result,
        CPU6502Registers.set_a, CPU6502Registers.set_x, CPU6502Registers.set_y,
        CPU6502Registers.set_s, CPU6502Registers.set_pc, CPU6502Registers.set_e,
        CPU6502Registers.test_set, reduceCtorEq, reduceIte, hD', decide_eq_true_eq,
        eq_self_iff_true, not_true, if_false, if_true, Bool.false_eq_true, not_false_eq_true,
        Bool.true_eq_false, ite_true, ite_false] at hexec <;>
    obtain rfl := (Option.some.inj hexec).symm <;>
    simp only [CPU6502Registers.test_set, CPU6502Registers.set_a, test_mk_p,
      reduceCtorEq, reduceIte, eq_self_iff_true, if_true, if_false, ite_true, ite_false] <;>
    simp only [peddleAdc, signExt4, decide_eq_true_eq] <;>
    · have hcib : (if tc = true then (1 : Nat) else 0) ≤ 1 := by cases tc <;> simp
      generalize hci : (if tc = true then (1 : Nat) else 0) = ci at hcib ⊢
      have h15a : ra &&& 15 ≤ 15 := Nat.and_le_right
      have h15m : m &&& 15 ≤ 15 := Nat.and_le_right
      have hsha : ra >>> 4 < 16 := shr4_lt ra ha'
      have hshm : m >>> 4 < 16 := shr4_lt m hm
      have e1 : ((ra &&& 15) + (m &&& 15) + ci) % 256 = (ra &&& 15) + (m &&& 15) + ci :=
        Nat.mod_eq_of_lt (by omega)
      have e2 : (ra >>> 4 + m >>> 4) % 256 = ra >>> 4 + m >>> 4 := Nat.mod_eq_of_lt (by omega)
      rw [e1, e2]
      have e3 : (ra >>> 4 + m >>> 4 + 1) % 256 = ra >>> 4 + m >>> 4 + 1 :=
        Nat.mod_eq_of_lt (by omega)
      rw [e3]
      rw [bcd_sign_eq _ hsha, bcd_sign_eq _ hshm]
      obtain ⟨hb1, hb2⟩ := signExt4_bounds _ hsha
      obtain ⟨hb3, hb4⟩ := signExt4_bounds _ hshm
      by_cases h4 : (ra &&& 15) + (m &&& 15) + ci > 9 <;>
        simp only [h4, if_true, if_false, ite_true, ite_false, Nat.add_zero]
      · have e4 : ((ra &&& 15) + (m &&& 15) + ci + 6) % 256 = (ra &&& 15) + (m &&& 15) + ci + 6 :=
          Nat.mod_eq_of_lt (by omega)
        rw [e4]
        rw [toInt8_eq _ (by omega) (by omega)]
        by_cases h9 : ra >>> 4 + m >>> 4 + 1 > 9 <;>
          simp only [h9, if_true, if_false, ite_true, ite_false]
        · have e5 : (ra >>> 4 + m >>> 4 + 1 + 6) % 256 = ra >>> 4 + m >>> 4 + 1 + 6 :=
            Nat.mod_eq_of_lt (by omega)
          rw [e5, and_255]
          refine ⟨?_, ?_, ?_⟩ <;> first | rfl | trivial
        · rw [and_255]
          refine ⟨?_, ?_, ?_⟩ <;> first | rfl | trivial
      · rw [toInt8_eq _ (by omega) (by omega)]
        by_cases h9 : ra >>> 4 + m >>> 4 > 9 <;>
          simp only [h9, if_true, if_false, ite_true, ite_false]
        · have e5 : (ra >>> 4 + m >>> 4 + 6) % 256 = ra >>> 4 + m >>> 4 + 6 :=
            Nat.mod_eq_of_lt (by omega)
          rw [e5, and_255]
          refine ⟨?_, ?_, ?_⟩ <;> first | rfl | trivial
        · rw [and_255]
          refine ⟨?_, ?_, ?_⟩ <;> first | rfl | trivial
  · rfl

/-- C1 witness: the decimal add 0x58 + 0x46 with carry clear, checked
against the Peddle decomposition on a concrete machine. -/
theorem C1_witness :
    CPU6502.execute_ADC adcImmInfo 0 0 c1AdcIn = some c1AdcOut ∧
    c1AdcOut.registers.a = (peddleAdc c1AdcIn.registers.a 0x46 c1AdcIn.registers.test_c).1 ∧
    c1AdcOut.registers.test .C =
      (peddleAdc c1AdcIn.registers.a 0x46 c1AdcIn.registers.test_c).2.1 ∧
    c1AdcOut.registers.test .V =
      (peddleAdc c1AdcIn.registers.a 0x46 c1AdcIn.registers.test_c).2.2 := by
  have h := C1_adc_decimal_peddle.1 c1AdcIn c1AdcOut adcImmInfo 0 0 0x46
    rfl (by decide) rfl (by decide) rfl
  exact ⟨rfl, h.1, h.2.1, h.2.2⟩

/-- Modelled from the spec: the NMOS pre-high-correction partial result of
a decimal add, whose bit 7 drives N on NMOS. -/
def peddleAdcPartial (a m : Nat) (c : Bool) : Nat :=
  let ci := if c then 1 else 0
  let lo := (a &&& 0x0f) + (m &&& 0x0f) + ci
  let carry4 : Bool := lo > 9
  let lo := if carry4 then lo + 6 else lo
  let hi := (a >>> 4) + (m >>> 4) + (if carry4 then 1 else 0)
  ((hi <<< 4) ||| (lo &&& 0x0f)) &&& 0xff

/-- Machine in decimal mode (P = 0x08) with A = 0x19 and operand byte
0x28 at address 0, on the CMOS variant. -/
def c2AdcIn : CPU6502 :=
  { registers := { a := 0x19, x := 0, y := 0, s := 0xff, pc := 0x1000, p := 0x08, e := true },
    memory := mkMemory [(0, 0x28)], sets := CPU_R65C02, m_halt := false,
    m_instruction_count := 0, m_cycle_count := 0, m_instruction_cycle_count := 0 }

/-- The machine c2AdcIn after ADC: A = 0x47, flags unchanged, one extra
instruction cycle. -/
def c2AdcOut : CPU6502 :=
  { registers := { a := 0x47, x := 0, y := 0, s := 0xff, pc := 0x1000, p := 0x08, e := true },
    memory := mkMemory [(0, 0x28)], sets := CPU_R65C02, m_halt := false,
    m_instruction_count := 0, m_cycle_count := 0, m_instruction_cycle_count := 1 }

/-- C2: in decimal mode the NMOS core sets Z from the pre-correction
binary sum truncated to 8 bits and N from the pre-high-correction partial
result, while the CMOS core sets N and Z from the post-correction
accumulator and charges one extra cycle; concretely SED; LDA #$19;
ADC #$28 with carry clear gives A = 0x47 with N = 0 and Z = 0, in 6 total
cycles on NMOS and 7 on CMOS. -/
theorem C2_adc_decimal_nz_cycle :
    (∀ (c c2 : CPU6502) (info : Info) (ea1 ea2 m : Nat),
    c.registers.test .D = true →
    c.registers.a < 0x100 →
    c.memory.read_8 ea1 = some m → m < 0x100 →
    CPU6502.execute_ADC info ea1 ea2 c = some c2 →
    (c.m_bcd_cmos = false →
      c2.registers.test .Z =
        decide ((c.registers.a + m + (if c.registers.test_c then 1 else 0)) % 256 = 0) ∧
      c2.registers.test .N =
        decide (peddleAdcPartial c.registers.a m c.registers.test_c &&& 0x80 ≠ 0) ∧
      c2.m_instruction_cycle_count = c.m_instruction_cycle_count) ∧
    (c.m_bcd_cmos = true →
      c2.registers.test .N =
        decide ((peddleAdc c.registers.a m c.registers.test_c).1 &&& 0x80 ≠ 0) ∧
      c2.registers.test .Z = decide ((peddleAdc c.registers.a m c.registers.test_c).1 = 0) ∧
      c2.m_instruction_cycle_count = (c.m_instruction_cycle_count + 1) % 256)) ∧
    (steps (bcdAddCPU CPU_6502) 3).map
        (fun c => (c.registers.a, c.registers.test .N, c.registers.test .Z, c.m_cycle_count)) =
      some (0x47, false, false, 6) ∧
    (steps (bcdAddCPU CPU_R65C02) 3).map
        (fun c => (c.registers.a, c.registers.test .N, c.registers.test .Z, c.m_cycle_count)) =
      some (0x47, false, false, 7) := by
  refine ⟨?_, rfl, rfl⟩
  intro c c2 info ea1 ea2 m hD ha hread hm hexec
  obtain ⟨⟨ra, rx, ry, rs, rpc, rp, re⟩, mem, sets0, mh, mic, mcc, micc⟩ := c
  have hD' : CPU6502Registers.test ⟨ra, rx, ry, rs, rpc, rp, re⟩ .D = true := hD
  have ha' : ra < 256 := ha
  unfold CPU6502.execute_ADC at hexec
  rw [hread] at hexec
  simp only [Option.bind_eq_bind, Option.some_bind] at hexec
  dsimp only [CPU6502.m_bcd_cmos] at hexec ⊢
  generalize htc : CPU6502Registers.test_c ⟨ra, rx, ry, rs, rpc, rp, re⟩ = tc at hexec ⊢
  cases hcmos : sets0.test ISet.CMOS <;>
    simp only [CPU6502.m_bcd_cmos, CPU6502.add_cycle, hcmos,
      CPU6502Registers.set_z, CPU6502Registers.set_c, CPU6502Registers.set_v,
      CPU6502Registers.set_n, CPU6502Registers.set_n_z_for_result,
      CPU6502Registers.set_a, CPU6502Registers.set_x, CPU6502Registers.set_y,
      CPU6502Registers.set_s, CPU6502Registers.set_pc, CPU6502Registers.set_e,
      CPU6502Registers.test_set, reduceCtorEq, reduceIte, hD', decide_eq_true_eq,
      eq_self_iff_true, not_true, if_false, if_true, Bool.false_eq_true, not_false_eq_true,
      Bool.true_eq_false, ite_true, ite_false] at hexec <;>
  obtain rfl := (Option.some.inj hexec).symm <;>
  constructor
  · -- NMOS, first implication
    intro _
    simp only [CPU6502Registers.test_set, CPU6502Registers.set_a, test_mk_p,
      reduceCtorEq, reduceIte, eq_self_iff_true, if_true, if_false, ite_true, ite_false]
    simp only [peddleAdcPartial, decide_eq_true_eq]
    have hcib : (if tc = true then (1 : Nat) else 0) ≤ 1 := by cases tc <;> simp
    generalize hci : (if tc = true then (1 : Nat) else 0) = ci at hcib ⊢
    have h15a : ra &&& 15 ≤ 15 := Nat.and_le_right
    have h15m : m &&& 15 ≤ 15 := Nat.and_le_right
    have hsha : ra >>> 4 < 16 := shr4_lt ra ha'
    have hshm : m >>> 4 < 16 := shr4_lt m hm
    have e1 : ((ra &&& 15) + (m &&& 15) + ci) % 256 = (ra &&& 15) + (m &&& 15) + ci :=
      Nat.mod_eq_of_lt (by omega)
    have e2 : (ra >>> 4 + m >>> 4) % 256 = ra >>> 4 + m >>> 4 := Nat.mod_eq_of_lt (by omega)
    rw [e1, e2]
    refine ⟨?_, ?_, trivial⟩
    · simp only [decide_eq_decide, and_255]
      rw [Nat.mod_mod_of_dvd _ (by norm_num)]
    · by_cases h4 : (ra &&& 15) + (m &&& 15) + ci > 9 <;>
        simp only [h4, if_true, if_false, ite_true, ite_false, Nat.add_zero]
      · have e3 : (ra >>> 4 + m >>> 4 + 1) % 256 = ra >>> 4 + m >>> 4 + 1 :=
          Nat.mod_eq_of_lt (by omega)
        have e4 : ((ra &&& 15) + (m &&& 15) + ci + 6) % 256 = (ra &&& 15) + (m &&& 15) + ci + 6 :=
          Nat.mod_eq_of_lt (by omega)
        rw [e3, e4, and_255]
      · rw [and_255]
  · intro hcon
    exact absurd hcon (by decide)
  · intro hcon
    exact absurd hcon (by decide)
  · intro _
    simp only [CPU6502Registers.test_set, CPU6502Registers.set_a, test_mk_p,
      reduceCtorEq, reduceIte, eq_self_iff_true, if_true, if_false, ite_true, ite_false]
    simp only [peddleAdc, decide_eq_true_eq]
    have hcib : (if tc = true then (1 : Nat) else 0) ≤ 1 := by cases tc <;> simp
    generalize hci : (if tc = true then (1 : Nat) else 0) = ci at hcib ⊢
    have h15a : ra &&& 15 ≤ 15 := Nat.and_le_right
    have h15m : m &&& 15 ≤ 15 := Nat.and_le_right
    have hsha : ra >>> 4 < 16 := shr4_lt ra ha'
    have hshm : m >>> 4 < 16 := shr4_lt m hm
    have e1 : ((ra &&& 15) + (m &&& 15) + ci) % 256 = (ra &&& 15) + (m &&& 15) + ci :=
      Nat.mod_eq_of_lt (by omega)
    have e2 : (ra >>> 4 + m >>> 4) % 256 = ra >>> 4 + m >>> 4 := Nat.mod_eq_of_lt (by omega)
    rw [e1, e2]
    by_cases h4 : (ra &&& 15) + (m &&& 15) + ci > 9 <;>
      simp only [h4, if_true, if_false, ite_true, ite_false, Nat.add_zero]
    · have e3 : (ra >>> 4 + m >>> 4 + 1) % 256 = ra >>> 4 + m >>> 4 + 1 :=
        Nat.mod_eq_of_lt (by omega)
      have e4 : ((ra &&& 15) + (m &&& 15) + ci + 6) % 256 = (ra &&& 15) + (m &&& 15) + ci + 6 :=
        Nat.mod_eq_of_lt (by omega)
      rw [e3, e4]
      by_cases h9 : ra >>> 4 + m >>> 4 + 1 > 9 <;>
        simp only [h9, if_true, if_false, ite_true, ite_false]
      · have e5 : (ra >>> 4 + m >>> 4 + 1 + 6) % 256 = ra >>> 4 + m >>> 4 + 1 + 6 :=
          Nat.mod_eq_of_lt (by omega)
        rw [e5, and_255]
        refine ⟨?_, ?_, ?_⟩ <;> first | rfl | trivial
      · rw [and_255]
        refine ⟨?_, ?_, ?_⟩ <;> first | rfl | trivial
    · by_cases h9 : ra >>> 4 + m >>> 4 > 9 <;>
        simp only [h9, if_true, if_false, ite_true, ite_false]
      · have e5 : (ra >>> 4 + m >>> 4 + 6) % 256 = ra >>> 4 + m >>> 4 + 6 :=
          Nat.mod_eq_of_lt (by omega)
        rw [e5, and_255]
        refine ⟨?_, ?_, ?_⟩ <;> first | rfl | trivial
      · rw [and_255]
        refine ⟨?_, ?_, ?_⟩ <;> first | rfl | trivial


/-- C2 witness: the CMOS decimal add 0x19 + 0x28 with carry clear sets N
and Z from the corrected accumulator 0x47 and adds a cycle. -/
theorem C2_witness :
    CPU6502.execute_ADC adcImmInfo 0 0 c2AdcIn = some c2AdcOut ∧
    c2AdcOut.registers.test .N =
      decide ((peddleAdc c2AdcIn.registers.a 0x28 c2AdcIn.registers.test_c).1 &&& 0x80 ≠ 0) ∧
    c2AdcOut.registers.test .Z =
      decide ((peddleAdc c2AdcIn.registers.a 0x28 c2AdcIn.registers.test_c).1 = 0) ∧
    c2AdcOut.m_instruction_cycle_count = (c2AdcIn.m_instruction_cycle_count + 1) % 256 := by
  have h := (C2_adc_decimal_nz_cycle.1 c2AdcIn c2AdcOut adcImmInfo 0 0 0x28
    rfl (by decide) rfl (by decide) rfl).2 rfl
  exact ⟨rfl, h.1, h.2.1, h.2.2⟩


theorem or_two_pow_add (n s : Nat) (h : s < 2 ^ n) : 2 ^ n ||| s = 2 ^ n + s := by
  apply Nat.eq_of_testBit_eq
  intro i
  rw [Nat.testBit_or]
  rcases lt_trichotomy i n with hi | rfl | hi
  · rw [Nat.testBit_two_pow_add_gt hi]
    have : Nat.testBit (2 ^ n) i = false := Nat.testBit_two_pow_of_ne (by omega)
    simp [this]
  · rw [Nat.testBit_two_pow_add_eq]
    have hs : Nat.testBit s i = false := Nat.testBit_lt_two_pow h
    have h2 : Nat.testBit (2 ^ i) i = true := Nat.testBit_two_pow_self
    simp [hs, h2]
  · have h1 : Nat.testBit (2 ^ n) i = false := Nat.testBit_two_pow_of_ne (by omega)
    have h2 : Nat.testBit s i = false := Nat.testBit_lt_two_pow (by
      calc s < 2 ^ n := h
      _ ≤ 2 ^ i := Nat.pow_le_pow_right (by norm_num) (by omega))
    have h3 : Nat.testBit (2 ^ n + s) i = false := Nat.testBit_lt_two_pow (by
      have : 2 ^ n + s < 2 ^ (n + 1) := by have := Nat.pow_succ 2 n; omega
      calc 2 ^ n + s < 2 ^ (n + 1) := this
      _ ≤ 2 ^ i := Nat.pow_le_pow_right (by norm_num) (by omega))
    simp [h1, h2, h3]

theorem stack_or_eq_add (s : Nat) (h : s < 0x100) : 0x100 ||| s = 0x100 + s := by
  have h2 := or_two_pow_add 8 s (by norm_num; omega)
  norm_num at h2
  convert h2 using 2

theorem stack_base_or_eq_add (s : Nat) (h : s < 0x100) :
    STACK_BASE_ADDRESS ||| s = 0x100 + s := stack_or_eq_add s h

def after_push (c : CPU6502) (b : Nat) : CPU6502 :=
  { registers :=
      { a := c.registers.a, x := c.registers.x, y := c.registers.y,
        s := (c.registers.s + 0xff) &&& 0xff, pc := c.registers.pc,
        p := c.registers.p, e := c.registers.e },
    memory := pushedMemory c b,
    sets := c.sets,
    m_halt := c.m_halt,
    m_instruction_count := c.m_instruction_count,
    m_cycle_count := c.m_cycle_count,
    m_instruction_cycle_count := c.m_instruction_cycle_count }

theorem stack_push_eq2 (c : CPU6502) (b : Nat)
    (h : STACK_BASE_ADDRESS ||| c.registers.s < c.memory.size) :
    c.stack_push b = some (after_push c b) := by
  rw [stack_push_eq c b h]; rfl

theorem after_push_memory (c : CPU6502) (b : Nat) :
    (after_push c b).memory = pushedMemory c b := by unfold after_push; rfl

theorem after_push_sets (c : CPU6502) (b : Nat) : (after_push c b).sets = c.sets := by unfold after_push; rfl

theorem after_push_halt (c : CPU6502) (b : Nat) : (after_push c b).m_halt = c.m_halt := by unfold after_push; rfl

theorem pushedMemory_size (c : CPU6502) (b : Nat) :
    (pushedMemory c b).size = c.memory.size := rfl

theorem pushedMemory_read_ne (c : CPU6502) (b a : Nat)
    (h : a ≠ STACK_BASE_ADDRESS ||| c.registers.s) :
    (pushedMemory c b).m_memory a = c.memory.m_memory a := by
  simp [pushedMemory, h]

theorem pushedMemory_read_eq (c : CPU6502) (b : Nat) :
    (pushedMemory c b).m_memory (STACK_BASE_ADDRESS ||| c.registers.s) = b &&& 0xff := by
  simp [pushedMemory]

theorem shr8_lt (x : Nat) (h : x < 0x10000) : x >>> 8 < 0x100 := by
  rw [Nat.shiftRight_eq_div_pow]; omega

theorem after_push_e (c : CPU6502) (b : Nat) :
    (after_push c b).registers.e = c.registers.e := by unfold after_push; rfl

theorem after_push_p (c : CPU6502) (b : Nat) :
    (after_push c b).registers.p = c.registers.p := by unfold after_push; rfl

theorem after_push_pc (c : CPU6502) (b : Nat) :
    (after_push c b).registers.pc = c.registers.pc := by unfold after_push; rfl

theorem after_push_s (c : CPU6502) (b : Nat) :
    (after_push c b).registers.s = (c.registers.s + 0xff) &&& 0xff := rfl

theorem after_push_size (c : CPU6502) (b : Nat) :
    (after_push c b).memory.size = c.memory.size := by unfold after_push; rfl

theorem after_push_test (c : CPU6502) (b : Nat) (fl : Flag) :
    (after_push c b).registers.test fl = c.registers.test fl := by
  unfold after_push
  exact test_mk_p _ _ _ _ _ _ c.registers fl

theorem testBit_32 (i : Nat) : (32 : Nat).testBit i = decide (i = 5) := by
  rcases Nat.lt_or_ge i 8 with hi | hi
  · interval_cases i <;> decide
  · have h0 : (32 : Nat) < 2 ^ i :=
      lt_of_lt_of_le (by norm_num) (Nat.pow_le_pow_right (by norm_num) (by omega : 6 ≤ i))
    rw [Nat.testBit_lt_two_pow h0]
    symm
    simp
    omega

theorem testBit_16 (i : Nat) : (16 : Nat).testBit i = decide (i = 4) := by
  rcases Nat.lt_or_ge i 8 with hi | hi
  · interval_cases i <;> decide
  · have h0 : (16 : Nat) < 2 ^ i :=
      lt_of_lt_of_le (by norm_num) (Nat.pow_le_pow_right (by norm_num) (by omega : 5 ≤ i))
    rw [Nat.testBit_lt_two_pow h0]
    symm
    simp
    omega

theorem testBit_255 (i : Nat) : (255 : Nat).testBit i = decide (i < 8) := by
  rcases Nat.lt_or_ge i 8 with hi | hi
  · interval_cases i <;> decide
  · have h0 : (255 : Nat) < 2 ^ i :=
      lt_of_lt_of_le (by norm_num) (Nat.pow_le_pow_right (by norm_num) hi)
    rw [Nat.testBit_lt_two_pow h0]
    symm
    simp
    omega

theorem testBit_239 (i : Nat) : (239 : Nat).testBit i = (decide (i ≠ 4) && decide (i < 8)) := by
  rcases Nat.lt_or_ge i 8 with hi | hi
  · interval_cases i <;> decide
  · have h0 : (239 : Nat) < 2 ^ i :=
      lt_of_lt_of_le (by norm_num) (Nat.pow_le_pow_right (by norm_num) hi)
    rw [Nat.testBit_lt_two_pow h0]
    symm
    simp
    omega

set_option maxHeartbeats 1600000 in
/-- C5: with a non-reset vector, go_vector pushes the PC high byte at
0x0100+S, the low byte one below, then P with bit 5 forced to 1, bit 4
equal to is_brk and all other bits unchanged; it sets I, clears D exactly
on CMOS, loads PC from the little-endian word at the vector address, and
sets the halt flag iff the loaded PC is 0x0000. -/
theorem C5_go_vector : ∀ (c c2 : CPU6502) (v : Vector) (brk : Bool),
    c.registers.e = true →
    c.registers.s < 0x100 →
    c.registers.p < 0x100 →
    c.registers.pc < 0x10000 →
    c.memory.size = 0x10000 →
    c.m_halt = false →
    v ≠ Vector.VECTOR_RESET →
    CPU6502.go_vector c v brk = some c2 →
    c2.memory.read_8 (0x100 + c.registers.s) = some (c.registers.pc >>> 8) ∧
    c2.memory.read_8 (0x100 + (c.registers.s + 0xff) % 0x100) =
      some (c.registers.pc &&& 0xff) ∧
    (∃ pv, c2.memory.read_8 (0x100 + (c.registers.s + 0xfe) % 0x100) = some pv ∧
      Nat.testBit pv 5 = true ∧ Nat.testBit pv 4 = brk ∧
      ∀ i, i ≠ 4 → i ≠ 5 → Nat.testBit pv i = Nat.testBit c.registers.p i) ∧
    c2.registers.s = (c.registers.s + 0xfd) % 0x100 ∧
    c2.registers.test .I = true ∧
    c2.registers.test .D =
      (if c.m_interrupt_clears_decimal then false else c.registers.test .D) ∧
    c2.registers.pc =
      (c.memory.m_memory v.addr ||| (c.memory.m_memory (v.addr + 1) <<< 8)) % 0x10000 ∧
    c2.m_halt = decide (c2.registers.pc = 0) := by
  intro c c2 v brk he hs hp hpc hsize hhalt hv hexec
  obtain ⟨⟨ra, rx, ry, rs, rpc, rp, re⟩, mem, sets0, mh, mic, mcc, micc⟩ := c
  dsimp only at he hs hp hpc hsize hhalt ⊢
  subst he hhalt
  unfold CPU6502.go_vector at hexec
  rw [if_neg hv] at hexec
  dsimp only [Flag.index] at hexec
  have haddr : 0xffe4 ≤ v.addr ∧ v.addr + 1 < 0x10000 := by
    cases v <;> exact ⟨by decide, by decide⟩
  have hs1 : ((rs + 0xff) &&& 0xff) < 0x100 := by rw [and_255]; omega
  have hs2 : ((((rs + 0xff) &&& 0xff) + 0xff) &&& 0xff) < 0x100 := by rw [and_255]; omega
  set c0 : CPU6502 :=
    { registers := { a := ra, x := rx, y := ry, s := rs, pc := rpc, p := rp, e := true },
      memory := mem, sets := sets0, m_halt := false, m_instruction_count := mic,
      m_cycle_count := mcc, m_instruction_cycle_count := micc } with hc0
  have s0 : c0.registers.s = rs := by rw [hc0]
  have p0 : c0.registers.p = rp := by rw [hc0]
  have pc0 : c0.registers.pc = rpc := by rw [hc0]
  have e0 : c0.registers.e = true := by rw [hc0]
  have sets0eq : c0.sets = sets0 := by rw [hc0]
  have size0 : c0.memory.size = 0x10000 := by rw [hc0]; exact hsize
  have halt0 : c0.m_halt = false := by rw [hc0]
  rw [stack_push_eq2 _ (rpc >>> 8)
    (by rw [s0, size0]; exact stack_addr_lt hs)] at hexec
  simp only [Option.bind_eq_bind, Option.some_bind] at hexec
  simp only [after_push_e, after_push_p, after_push_pc, after_push_s, after_push_sets,
    after_push_halt, s0, p0, pc0, e0, sets0eq] at hexec
  rw [stack_push_eq2 _ (rpc &&& 255)
    (by rw [after_push_s, s0, after_push_size, size0]; exact stack_addr_lt hs1)] at hexec
  simp only [Option.some_bind] at hexec
  simp only [after_push_e, after_push_p, after_push_pc, after_push_s, after_push_sets,
    after_push_halt, s0, p0, pc0, e0, sets0eq, eq_self_iff_true, if_true, ite_true] at hexec
  rw [stack_push_eq2 _ _
    (by rw [after_push_s, after_push_s, s0, after_push_size, after_push_size, size0]
        exact stack_addr_lt hs2)] at hexec
  simp only [Option.some_bind] at hexec
  dsimp only [CPU6502.m_interrupt_clears_decimal] at hexec
  simp only [after_push_sets, sets0eq] at hexec
  have hne3 : v.addr ≠ STACK_BASE_ADDRESS |||
      (after_push (after_push c0 (rpc >>> 8)) (rpc &&& 255)).registers.s := by
    rw [after_push_s, after_push_s, s0, stack_base_or_eq_add _ hs2]
    omega
  have hne2 : v.addr + 1 ≠ STACK_BASE_ADDRESS |||
      (after_push (after_push c0 (rpc >>> 8)) (rpc &&& 255)).registers.s := by
    rw [after_push_s, after_push_s, s0, stack_base_or_eq_add _ hs2]
    omega
  have hne3b : v.addr ≠ STACK_BASE_ADDRESS ||| (after_push c0 (rpc >>> 8)).registers.s := by
    rw [after_push_s, s0, stack_base_or_eq_add _ hs1]
    omega
  have hne2b : v.addr + 1 ≠ STACK_BASE_ADDRESS ||| (after_push c0 (rpc >>> 8)).registers.s := by
    rw [after_push_s, s0, stack_base_or_eq_add _ hs1]
    omega
  have hne3c : v.addr ≠ STACK_BASE_ADDRESS ||| c0.registers.s := by
    rw [s0, stack_base_or_eq_add _ hs]
    omega
  have hne2c : v.addr + 1 ≠ STACK_BASE_ADDRESS ||| c0.registers.s := by
    rw [s0, stack_base_or_eq_add _ hs]
    omega
  cases hcd : sets0.test ISet.CMOS
  · simp only [hcd, Bool.false_eq_true, if_false, ite_false] at hexec
    rw [show (after_push (after_push (after_push c0 (rpc >>> 8)) (rpc &&& 255))
        (if brk = true then rp ||| 1 <<< 5 ||| 1 <<< 4
         else (rp ||| 1 <<< 5) &&& (255 ^^^ 1 <<< 4))).memory =
        pushedMemory (after_push (after_push c0 (rpc >>> 8)) (rpc &&& 255))
          (if brk = true then rp ||| 1 <<< 5 ||| 1 <<< 4
           else (rp ||| 1 <<< 5) &&& (255 ^^^ 1 <<< 4)) from after_push_memory _ _] at hexec

    unfold Memory.read_16_le at hexec
    rw [Memory.read_8_eq_some (by
          rw [pushedMemory_size, after_push_size, after_push_size, size0]; omega),
        Memory.read_8_eq_some (by
          rw [pushedMemory_size, after_push_size, after_push_size, size0]; omega)] at hexec
    rw [pushedMemory_read_ne _ _ _ hne3, pushedMemory_read_ne _ _ _ hne2] at hexec
    rw [show (after_push (after_push c0 (rpc >>> 8)) (rpc &&& 255)).memory =
        pushedMemory (after_push c0 (rpc >>> 8)) (rpc &&& 255) from after_push_memory _ _] at hexec
    rw [pushedMemory_read_ne _ _ _ hne3b, pushedMemory_read_ne _ _ _ hne2b] at hexec
    rw [show (after_push c0 (rpc >>> 8)).memory = pushedMemory c0 (rpc >>> 8) from
        after_push_memory _ _] at hexec
    rw [pushedMemory_read_ne _ _ _ hne3c, pushedMemory_read_ne _ _ _ hne2c] at hexec
    dsimp only at hexec
    simp only [Option.some_bind] at hexec
    by_cases hpc0 : (mem.m_memory v.addr ||| mem.m_memory (v.addr + 1) <<< 8) % 65536 = 0 <;>
      simp only [hpc0, if_true, if_false, ite_true, ite_false] at hexec <;>
      obtain rfl := (Option.some.inj hexec).symm <;>
      refine ⟨?_, ?_, ?_, ?_, ?_, ?_, ?_, ?_⟩
    · rw [Memory.read_8_eq_some (by
          rw [pushedMemory_size, after_push_size, after_push_size, size0]; omega)]
      rw [pushedMemory_read_ne _ _ _ (by
          rw [after_push_s, after_push_s, s0, stack_base_or_eq_add _ hs2, and_255, and_255]
          omega)]
      rw [show (after_push (after_push c0 (rpc >>> 8)) (rpc &&& 255)).memory =
          pushedMemory (after_push c0 (rpc >>> 8)) (rpc &&& 255) from after_push_memory _ _]
      rw [pushedMemory_read_ne _ _ _ (by
          rw [after_push_s, s0, stack_base_or_eq_add _ hs1, and_255]
          omega)]
      rw [show (after_push c0 (rpc >>> 8)).memory = pushedMemory c0 (rpc >>> 8) from
          after_push_memory _ _]
      rw [show (0x100 + rs : Nat) = STACK_BASE_ADDRESS ||| c0.registers.s from by
          rw [s0, stack_base_or_eq_add _ hs]]
      rw [pushedMemory_read_eq]
      rw [and_255, Nat.mod_eq_of_lt (shr8_lt rpc hpc)]
    · rw [Memory.read_8_eq_some (by
          rw [pushedMemory_size, after_push_size, after_push_size, size0]; omega)]
      rw [pushedMemory_read_ne _ _ _ (by
          rw [after_push_s, after_push_s, s0, stack_base_or_eq_add _ hs2, and_255, and_255]
          omega)]
      rw [show (after_push (after_push c0 (rpc >>> 8)) (rpc &&& 255)).memory =
          pushedMemory (after_push c0 (rpc >>> 8)) (rpc &&& 255) from after_push_memory _ _]
      rw [show (0x100 + (rs + 0xff) % 0x100 : Nat) =
          STACK_BASE_ADDRESS ||| (after_push c0 (rpc >>> 8)).registers.s from by
          rw [after_push_s, s0, stack_base_or_eq_add _ hs1, and_255]]
      rw [pushedMemory_read_eq]
      simp only [and_255]
      rw [Nat.mod_mod_of_dvd rpc dvd_rfl]
    · rw [Memory.read_8_eq_some (by
          rw [pushedMemory_size, after_push_size, after_push_size, size0]; omega)]
      rw [show (0x100 + (rs + 0xfe) % 0x100 : Nat) = STACK_BASE_ADDRESS |||
          (after_push (after_push c0 (rpc >>> 8)) (rpc &&& 255)).registers.s from by
          rw [after_push_s, after_push_s, s0, stack_base_or_eq_add _ hs2, and_255, and_255]
          omega]
      rw [pushedMemory_read_eq]
      cases brk
      · simp only [Bool.false_eq_true, if_false, ite_false]
        rw [show (255 ^^^ 1 <<< 4 : Nat) = 239 from rfl,
            show (1 <<< 5 : Nat) = 32 from rfl]
        refine ⟨_, rfl, ?_, ?_, ?_⟩
        · simp [Nat.testBit_and, Nat.testBit_or, testBit_32, testBit_16, testBit_255,
            testBit_239]
        · simp [Nat.testBit_and, Nat.testBit_or, testBit_32, testBit_16, testBit_255,
            testBit_239]
        · intro i h4 h5
          simp only [Nat.testBit_and, Nat.testBit_or, testBit_32, testBit_16, testBit_255,
            testBit_239]
          rcases Nat.lt_or_ge i 8 with hi | hi
          · simp [h4, h5, hi]
          · have hrp : rp.testBit i = false := Nat.testBit_lt_two_pow (by
              calc rp < 256 := hp
              _ = 2 ^ 8 := by norm_num
              _ ≤ 2 ^ i := Nat.pow_le_pow_right (by norm_num) hi)
            simp [hrp, Nat.not_lt.mpr hi]
      · simp only [if_true, ite_true, eq_self_iff_true]
        rw [show (1 <<< 5 : Nat) = 32 from rfl, show (1 <<< 4 : Nat) = 16 from rfl]
        refine ⟨_, rfl, ?_, ?_, ?_⟩
        · simp [Nat.testBit_and, Nat.testBit_or, testBit_32, testBit_16, testBit_255]
        · simp [Nat.testBit_and, Nat.testBit_or, testBit_32, testBit_16, testBit_255]
        · intro i h4 h5
          simp only [Nat.testBit_and, Nat.testBit_or, testBit_32, testBit_16, testBit_255]
          rcases Nat.lt_or_ge i 8 with hi | hi
          · simp [h4, h5, hi]
          · have hrp : rp.testBit i = false := Nat.testBit_lt_two_pow (by
              calc rp < 256 := hp
              _ = 2 ^ 8 := by norm_num
              _ ≤ 2 ^ i := Nat.pow_le_pow_right (by norm_num) hi)
            simp [hrp, Nat.not_lt.mpr hi]
    · simp only [CPU6502Registers.set_i, CPU6502Registers.set_d, CPU6502Registers.set_s,
        after_push_s, s0, and_255]
      omega
    · rw [test_mk_p]
      simp only [CPU6502Registers.set_i, CPU6502Registers.set_d, CPU6502Registers.test_set,
        reduceCtorEq, reduceIte, if_true, if_false, ite_true, ite_false, eq_self_iff_true]
    · rw [test_mk_p]
      simp only [CPU6502Registers.set_i, CPU6502Registers.test_set,
        reduceCtorEq, reduceIte, if_true, if_false, ite_true, ite_false, eq_self_iff_true]
      rw [after_push_test, after_push_test, after_push_test]
      dsimp only [CPU6502.m_interrupt_clears_decimal]
      rw [hcd]
      simp
    · rw [hpc0]
    · simp [hpc0]
    · rw [Memory.read_8_eq_some (by
          rw [pushedMemory_size, after_push_size, after_push_size, size0]; omega)]
      rw [pushedMemory_read_ne _ _ _ (by
          rw [after_push_s, after_push_s, s0, stack_base_or_eq_add _ hs2, and_255, and_255]
          omega)]
      rw [show (after_push (after_push c0 (rpc >>> 8)) (rpc &&& 255)).memory =
          pushedMemory (after_push c0 (rpc >>> 8)) (rpc &&& 255) from after_push_memory _ _]
      rw [pushedMemory_read_ne _ _ _ (by
          rw [after_push_s, s0, stack_base_or_eq_add _ hs1, and_255]
          omega)]
      rw [show (after_push c0 (rpc >>> 8)).memory = pushedMemory c0 (rpc >>> 8) from
          after_push_memory _ _]
      rw [show (0x100 + rs : Nat) = STACK_BASE_ADDRESS ||| c0.registers.s from by
          rw [s0, stack_base_or_eq_add _ hs]]
      rw [pushedMemory_read_eq]
      rw [and_255, Nat.mod_eq_of_lt (shr8_lt rpc hpc)]
    · rw [Memory.read_8_eq_some (by
          rw [pushedMemory_size, after_push_size, after_push_size, size0]; omega)]
      rw [pushedMemory_read_ne _ _ _ (by
          rw [after_push_s, after_push_s, s0, stack_base_or_eq_add _ hs2, and_255, and_255]
          omega)]
      rw [show (after_push (after_push c0 (rpc >>> 8)) (rpc &&& 255)).memory =
          pushedMemory (after_push c0 (rpc >>> 8)) (rpc &&& 255) from after_push_memory _ _]
      rw [show (0x100 + (rs + 0xff) % 0x100 : Nat) =
          STACK_BASE_ADDRESS ||| (after_push c0 (rpc >>> 8)).registers.s from by
          rw [after_push_s, s0, stack_base_or_eq_add _ hs1, and_255]]
      rw [pushedMemory_read_eq]
      simp only [and_255]
      rw [Nat.mod_mod_of_dvd rpc dvd_rfl]
    · rw [Memory.read_8_eq_some (by
          rw [pushedMemory_size, after_push_size, after_push_size, size0]; omega)]
      rw [show (0x100 + (rs + 0xfe) % 0x100 : Nat) = STACK_BASE_ADDRESS |||
          (after_push (after_push c0 (rpc >>> 8)) (rpc &&& 255)).registers.s from by
          rw [after_push_s, after_push_s, s0, stack_base_or_eq_add _ hs2, and_255, and_255]
          omega]
      rw [pushedMemory_read_eq]
      cases brk
      · simp only [Bool.false_eq_true, if_false, ite_false]
        rw [show (255 ^^^ 1 <<< 4 : Nat) = 239 from rfl,
            show (1 <<< 5 : Nat) = 32 from rfl]
        refine ⟨_, rfl, ?_, ?_, ?_⟩
        · simp [Nat.testBit_and, Nat.testBit_or, testBit_32, testBit_16, testBit_255,
            testBit_239]
        · simp [Nat.testBit_and, Nat.testBit_or, testBit_32, testBit_16, testBit_255,
            testBit_239]
        · intro i h4 h5
          simp only [Nat.testBit_and, Nat.testBit_or, testBit_32, testBit_16, testBit_255,
            testBit_239]
          rcases Nat.lt_or_ge i 8 with hi | hi
          · simp [h4, h5, hi]
          · have hrp : rp.testBit i = false := Nat.testBit_lt_two_pow (by
              calc rp < 256 := hp
              _ = 2 ^ 8 := by norm_num
              _ ≤ 2 ^ i := Nat.pow_le_pow_right (by norm_num) hi)
            simp [hrp, Nat.not_lt.mpr hi]
      · simp only [if_true, ite_true, eq_self_iff_true]
        rw [show (1 <<< 5 : Nat) = 32 from rfl, show (1 <<< 4 : Nat) = 16 from rfl]
        refine ⟨_, rfl, ?_, ?_, ?_⟩
        · simp [Nat.testBit_and, Nat.testBit_or, testBit_32, testBit_16, testBit_255]
        · simp [Nat.testBit_and, Nat.testBit_or, testBit_32, testBit_16, testBit_255]
        · intro i h4 h5
          simp only [Nat.testBit_and, Nat.testBit_or, testBit_32, testBit_16, testBit_255]
          rcases Nat.lt_or_ge i 8 with hi | hi
          · simp [h4, h5, hi]
          · have hrp : rp.testBit i = false := Nat.testBit_lt_two_pow (by
              calc rp < 256 := hp
              _ = 2 ^ 8 := by norm_num
              _ ≤ 2 ^ i := Nat.pow_le_pow_right (by norm_num) hi)
            simp [hrp, Nat.not_lt.mpr hi]
    · simp only [CPU6502Registers.set_i, CPU6502Registers.set_d, CPU6502Registers.set_s,
        after_push_s, s0, and_255]
      omega
    · rw [test_mk_p]
      simp only [CPU6502Registers.set_i, CPU6502Registers.set_d, CPU6502Registers.test_set,
        reduceCtorEq, reduceIte, if_true, if_false, ite_true, ite_false, eq_self_iff_true]
    · rw [test_mk_p]
      simp only [CPU6502Registers.set_i, CPU6502Registers.test_set,
        reduceCtorEq, reduceIte, if_true, if_false, ite_true, ite_false, eq_self_iff_true]
      rw [after_push_test, after_push_test, after_push_test]
      dsimp only [CPU6502.m_interrupt_clears_decimal]
      rw [hcd]
      simp
    · rfl
    · simp only [after_push_halt, halt0, hpc0]
      simp
  · simp only [hcd, if_true, ite_true] at hexec
    rw [show (after_push (after_push (after_push c0 (rpc >>> 8)) (rpc &&& 255))
        (if brk = true then rp ||| 1 <<< 5 ||| 1 <<< 4
         else (rp ||| 1 <<< 5) &&& (255 ^^^ 1 <<< 4))).memory =
        pushedMemory (after_push (after_push c0 (rpc >>> 8)) (rpc &&& 255))
          (if brk = true then rp ||| 1 <<< 5 ||| 1 <<< 4
           else (rp ||| 1 <<< 5) &&& (255 ^^^ 1 <<< 4)) from after_push_memory _ _] at hexec

    unfold Memory.read_16_le at hexec
    rw [Memory.read_8_eq_some (by
          rw [pushedMemory_size, after_push_size, after_push_size, size0]; omega),
        Memory.read_8_eq_some (by
          rw [pushedMemory_size, after_push_size, after_push_size, size0]; omega)] at hexec
    rw [pushedMemory_read_ne _ _ _ hne3, pushedMemory_read_ne _ _ _ hne2] at hexec
    rw [show (after_push (after_push c0 (rpc >>> 8)) (rpc &&& 255)).memory =
        pushedMemory (after_push c0 (rpc >>> 8)) (rpc &&& 255) from after_push_memory _ _] at hexec
    rw [pushedMemory_read_ne _ _ _ hne3b, pushedMemory_read_ne _ _ _ hne2b] at hexec
    rw [show (after_push c0 (rpc >>> 8)).memory = pushedMemory c0 (rpc >>> 8) from
        after_push_memory _ _] at hexec
    rw [pushedMemory_read_ne _ _ _ hne3c, pushedMemory_read_ne _ _ _ hne2c] at hexec
    dsimp only at hexec
    simp only [Option.some_bind] at hexec
    by_cases hpc0 : (mem.m_memory v.addr ||| mem.m_memory (v.addr + 1) <<< 8) % 65536 = 0 <;>
      simp only [hpc0, if_true, if_false, ite_true, ite_false] at hexec <;>
      obtain rfl := (Option.some.inj hexec).symm <;>
      refine ⟨?_, ?_, ?_, ?_, ?_, ?_, ?_, ?_⟩
    · rw [Memory.read_8_eq_some (by
          rw [pushedMemory_size, after_push_size, after_push_size, size0]; omega)]
      rw [pushedMemory_read_ne _ _ _ (by
          rw [after_push_s, after_push_s, s0, stack_base_or_eq_add _ hs2, and_255, and_255]
          omega)]
      rw [show (after_push (after_push c0 (rpc >>> 8)) (rpc &&& 255)).memory =
          pushedMemory (after_push c0 (rpc >>> 8)) (rpc &&& 255) from after_push_memory _ _]
      rw [pushedMemory_read_ne _ _ _ (by
          rw [after_push_s, s0, stack_base_or_eq_add _ hs1, and_255]
          omega)]
      rw [show (after_push c0 (rpc >>> 8)).memory = pushedMemory c0 (rpc >>> 8) from
          after_push_memory _ _]
      rw [show (0x100 + rs : Nat) = STACK_BASE_ADDRESS ||| c0.registers.s from by
          rw [s0, stack_base_or_eq_add _ hs]]
      rw [pushedMemory_read_eq]
      rw [and_255, Nat.mod_eq_of_lt (shr8_lt rpc hpc)]
    · rw [Memory.read_8_eq_some (by
          rw [pushedMemory_size, after_push_size, after_push_size, size0]; omega)]
      rw [pushedMemory_read_ne _ _ _ (by
          rw [after_push_s, after_push_s, s0, stack_base_or_eq_add _ hs2, and_255, and_255]
          omega)]
      rw [show (after_push (after_push c0 (rpc >>> 8)) (rpc &&& 255)).memory =
          pushedMemory (after_push c0 (rpc >>> 8)) (rpc &&& 255) from after_push_memory _ _]
      rw [show (0x100 + (rs + 0xff) % 0x100 : Nat) =
          STACK_BASE_ADDRESS ||| (after_push c0 (rpc >>> 8)).registers.s from by
          rw [after_push_s, s0, stack_base_or_eq_add _ hs1, and_255]]
      rw [pushedMemory_read_eq]
      simp only [and_255]
      rw [Nat.mod_mod_of_dvd rpc dvd_rfl]
    · rw [Memory.read_8_eq_some (by
          rw [pushedMemory_size, after_push_size, after_push_size, size0]; omega)]
      rw [show (0x100 + (rs + 0xfe) % 0x100 : Nat) = STACK_BASE_ADDRESS |||
          (after_push (after_push c0 (rpc >>> 8)) (rpc &&& 255)).registers.s from by
          rw [after_push_s, after_push_s, s0, stack_base_or_eq_add _ hs2, and_255, and_255]
          omega]
      rw [pushedMemory_read_eq]
      cases brk
      · simp only [Bool.false_eq_true, if_false, ite_false]
        rw [show (255 ^^^ 1 <<< 4 : Nat) = 239 from rfl,
            show (1 <<< 5 : Nat) = 32 from rfl]
        refine ⟨_, rfl, ?_, ?_, ?_⟩
        · simp [Nat.testBit_and, Nat.testBit_or, testBit_32, testBit_16, testBit_255,
            testBit_239]
        · simp [Nat.testBit_and, Nat.testBit_or, testBit_32, testBit_16, testBit_255,
            testBit_239]
        · intro i h4 h5
          simp only [Nat.testBit_and, Nat.testBit_or, testBit_32, testBit_16, testBit_255,
            testBit_239]
          rcases Nat.lt_or_ge i 8 with hi | hi
          · simp [h4, h5, hi]
          · have hrp : rp.testBit i = false := Nat.testBit_lt_two_pow (by
              calc rp < 256 := hp
              _ = 2 ^ 8 := by norm_num
              _ ≤ 2 ^ i := Nat.pow_le_pow_right (by norm_num) hi)
            simp [hrp, Nat.not_lt.mpr hi]
      · simp only [if_true, ite_true, eq_self_iff_true]
        rw [show (1 <<< 5 : Nat) = 32 from rfl, show (1 <<< 4 : Nat) = 16 from rfl]
        refine ⟨_, rfl, ?_, ?_, ?_⟩
        · simp [Nat.testBit_and, Nat.testBit_or, testBit_32, testBit_16, testBit_255]
        · simp [Nat.testBit_and, Nat.testBit_or, testBit_32, testBit_16, testBit_255]
        · intro i h4 h5
          simp only [Nat.testBit_and, Nat.testBit_or, testBit_32, testBit_16, testBit_255]
          rcases Nat.lt_or_ge i 8 with hi | hi
          · simp [h4, h5, hi]
          · have hrp : rp.testBit i = false := Nat.testBit_lt_two_pow (by
              calc rp < 256 := hp
              _ = 2 ^ 8 := by norm_num
              _ ≤ 2 ^ i := Nat.pow_le_pow_right (by norm_num) hi)
            simp [hrp, Nat.not_lt.mpr hi]
    · simp only [CPU6502Registers.set_i, CPU6502Registers.set_d, CPU6502Registers.set_s,
        after_push_s, s0, and_255]
      omega
    · rw [test_mk_p]
      simp only [CPU6502Registers.set_i, CPU6502Registers.set_d, CPU6502Registers.test_set,
        reduceCtorEq, reduceIte, if_true, if_false, ite_true, ite_false, eq_self_iff_true]
    · rw [test_mk_p]
      simp only [CPU6502Registers.set_i, CPU6502Registers.set_d, CPU6502Registers.test_set,
        reduceCtorEq, reduceIte, if_true, if_false, ite_true, ite_false, eq_self_iff_true]
      dsimp only [CPU6502.m_interrupt_clears_decimal]
      rw [hcd]
      simp
    · rw [hpc0]
    · simp [hpc0]
    · rw [Memory.read_8_eq_some (by
          rw [pushedMemory_size, after_push_size, after_push_size, size0]; omega)]
      rw [pushedMemory_read_ne _ _ _ (by
          rw [after_push_s, after_push_s, s0, stack_base_or_eq_add _ hs2, and_255, and_255]
          omega)]
      rw [show (after_push (after_push c0 (rpc >>> 8)) (rpc &&& 255)).memory =
          pushedMemory (after_push c0 (rpc >>> 8)) (rpc &&& 255) from after_push_memory _ _]
      rw [pushedMemory_read_ne _ _ _ (by
          rw [after_push_s, s0, stack_base_or_eq_add _ hs1, and_255]
          omega)]
      rw [show (after_push c0 (rpc >>> 8)).memory = pushedMemory c0 (rpc >>> 8) from
          after_push_memory _ _]
      rw [show (0x100 + rs : Nat) = STACK_BASE_ADDRESS ||| c0.registers.s from by
          rw [s0, stack_base_or_eq_add _ hs]]
      rw [pushedMemory_read_eq]
      rw [and_255, Nat.mod_eq_of_lt (shr8_lt rpc hpc)]
    · rw [Memory.read_8_eq_some (by
          rw [pushedMemory_size, after_push_size, after_push_size, size0]; omega)]
      rw [pushedMemory_read_ne _ _ _ (by
          rw [after_push_s, after_push_s, s0, stack_base_or_eq_add _ hs2, and_255, and_255]
          omega)]
      rw [show (after_push (after_push c0 (rpc >>> 8)) (rpc &&& 255)).memory =
          pushedMemory (after_push c0 (rpc >>> 8)) (rpc &&& 255) from after_push_memory _ _]
      rw [show (0x100 + (rs + 0xff) % 0x100 : Nat) =
          STACK_BASE_ADDRESS ||| (after_push c0 (rpc >>> 8)).registers.s from by
          rw [after_push_s, s0, stack_base_or_eq_add _ hs1, and_255]]
      rw [pushedMemory_read_eq]
      simp only [and_255]
      rw [Nat.mod_mod_of_dvd rpc dvd_rfl]
    · rw [Memory.read_8_eq_some (by
          rw [pushedMemory_size, after_push_size, after_push_size, size0]; omega)]
      rw [show (0x100 + (rs + 0xfe) % 0x100 : Nat) = STACK_BASE_ADDRESS |||
          (after_push (after_push c0 (rpc >>> 8)) (rpc &&& 255)).registers.s from by
          rw [after_push_s, after_push_s, s0, stack_base_or_eq_add _ hs2, and_255, and_255]
          omega]
      rw [pushedMemory_read_eq]
      cases brk
      · simp only [Bool.false_eq_true, if_false, ite_false]
        rw [show (255 ^^^ 1 <<< 4 : Nat) = 239 from rfl,
            show (1 <<< 5 : Nat) = 32 from rfl]
        refine ⟨_, rfl, ?_, ?_, ?_⟩
        · simp [Nat.testBit_and, Nat.testBit_or, testBit_32, testBit_16, testBit_255,
            testBit_239]
        · simp [Nat.testBit_and, Nat.testBit_or, testBit_32, testBit_16, testBit_255,
            testBit_239]
        · intro i h4 h5
          simp only [Nat.testBit_and, Nat.testBit_or, testBit_32, testBit_16, testBit_255,
            testBit_239]
          rcases Nat.lt_or_ge i 8 with hi | hi
          · simp [h4, h5, hi]
          · have hrp : rp.testBit i = false := Nat.testBit_lt_two_pow (by
              calc rp < 256 := hp
              _ = 2 ^ 8 := by norm_num
              _ ≤ 2 ^ i := Nat.pow_le_pow_right (by norm_num) hi)
            simp [hrp, Nat.not_lt.mpr hi]
      · simp only [if_true, ite_true, eq_self_iff_true]
        rw [show (1 <<< 5 : Nat) = 32 from rfl, show (1 <<< 4 : Nat) = 16 from rfl]
        refine ⟨_, rfl, ?_, ?_, ?_⟩
        · simp [Nat.testBit_and, Nat.testBit_or, testBit_32, testBit_16, testBit_255]
        · simp [Nat.testBit_and, Nat.testBit_or, testBit_32, testBit_16, testBit_255]
        · intro i h4 h5
          simp only [Nat.testBit_and, Nat.testBit_or, testBit_32, testBit_16, testBit_255]
          rcases Nat.lt_or_ge i 8 with hi | hi
          · simp [h4, h5, hi]
          · have hrp : rp.testBit i = false := Nat.testBit_lt_two_pow (by
              calc rp < 256 := hp
              _ = 2 ^ 8 := by norm_num
              _ ≤ 2 ^ i := Nat.pow_le_pow_right (by norm_num) hi)
            simp [hrp, Nat.not_lt.mpr hi]
    · simp only [CPU6502Registers.set_i, CPU6502Registers.set_d, CPU6502Registers.set_s,
        after_push_s, s0, and_255]
      omega
    · rw [test_mk_p]
      simp only [CPU6502Registers.set_i, CPU6502Registers.set_d, CPU6502Registers.test_set,
        reduceCtorEq, reduceIte, if_true, if_false, ite_true, ite_false, eq_self_iff_true]
    · rw [test_mk_p]
      simp only [CPU6502Registers.set_i, CPU6502Registers.set_d, CPU6502Registers.test_set,
        reduceCtorEq, reduceIte, if_true, if_false, ite_true, ite_false, eq_self_iff_true]
      dsimp only [CPU6502.m_interrupt_clears_decimal]
      rw [hcd]
      simp
    · rfl
    · simp only [after_push_halt, halt0, hpc0]
      simp


/-- Machine with PC = 0x1234, S = 0xFF, P = 0, IRQ vector pointing at
0x2000. -/
def c5in : CPU6502 :=
  { registers := { a := 0, x := 0, y := 0, s := 0xff, pc := 0x1234, p := 0, e := true },
    memory := mkMemory [(0xfffe, 0x00), (0xffff, 0x20)], sets := CPU_6502, m_halt := false,
    m_instruction_count := 0, m_cycle_count := 0, m_instruction_cycle_count := 0 }

/-- The machine c5in after go_vector(VECTOR_IRQ, brk = true). -/
def c5out : CPU6502 := (c5in.go_vector Vector.VECTOR_IRQ true).getD c5in

/-- C5 witness: a BRK-style interrupt entry from PC = 0x1234 with P = 0
on the concrete machine c5in. -/
theorem C5_witness :
    CPU6502.go_vector c5in Vector.VECTOR_IRQ true = some c5out ∧
    (c5out.memory.read_8 (0x100 + c5in.registers.s) = some (c5in.registers.pc >>> 8) ∧
     c5out.memory.read_8 (0x100 + (c5in.registers.s + 0xff) % 0x100) =
       some (c5in.registers.pc &&& 0xff) ∧
     (∃ pv, c5out.memory.read_8 (0x100 + (c5in.registers.s + 0xfe) % 0x100) = some pv ∧
       Nat.testBit pv 5 = true ∧ Nat.testBit pv 4 = true ∧
       ∀ i, i ≠ 4 → i ≠ 5 → Nat.testBit pv i = Nat.testBit c5in.registers.p i) ∧
     c5out.registers.s = (c5in.registers.s + 0xfd) % 0x100 ∧
     c5out.registers.test .I = true ∧
     c5out.registers.test .D =
       (if c5in.m_interrupt_clears_decimal then false else c5in.registers.test .D) ∧
     c5out.registers.pc =
       (c5in.memory.m_memory Vector.VECTOR_IRQ.addr |||
         (c5in.memory.m_memory (Vector.VECTOR_IRQ.addr + 1) <<< 8)) % 0x10000 ∧
     c5out.m_halt = decide (c5out.registers.pc = 0)) := by
  have h := C5_go_vector c5in c5out Vector.VECTOR_IRQ true rfl (by decide) (by decide)
    (by decide) rfl rfl (by decide) rfl
  exact ⟨rfl, h⟩


/-- C8: a KHAND call selects the device from the NOWDEV byte at 0xBF5C
and the function from X: 0x00 open-input, 0x03 open-output, 0x06
input-byte, 0x09 output-byte, 0x0C close, 0x0F input-available (the last
rejected when the device number exceeds 1); a dispatched call clears the
halt indicator and sets C to the negation of the method result, while an
unknown function or an uninstalled device reports the bad-call error. -/
theorem C8_khand_dispatch :
    (∀ (devices : Nat → Option ApexCharacterDevice) (mem : Memory)
       (registers r2 : CPU6502Registers) (halt : Bool) (nowdev : Nat)
       (dev : ApexCharacterDevice),
      mem.read_8 (Apex.SYS_PAGE_ADDRESS + Apex.NOWDEV) = some nowdev →
      Apex.khand devices mem registers = some (halt, r2) →
      devices nowdev = some dev →
      ((registers.x &&& 0xff = 0x00 →
         halt = false ∧
         r2 = (dev.open_for_input registers).2.set .C (¬ (dev.open_for_input registers).1)) ∧
       (registers.x &&& 0xff = 0x03 →
         halt = false ∧
         r2 = (dev.open_for_output registers).2.set .C (¬ (dev.open_for_output registers).1)) ∧
       (registers.x &&& 0xff = 0x06 →
         halt = false ∧
         r2 = (dev.input_byte registers).2.set .C (¬ (dev.input_byte registers).1)) ∧
       (registers.x &&& 0xff = 0x09 →
         halt = false ∧
         r2 = (dev.output_byte registers).2.set .C (¬ (dev.output_byte registers).1)) ∧
       (registers.x &&& 0xff = 0x0c →
         halt = false ∧
         r2 = (dev.close registers).2.set .C (¬ (dev.close registers).1)) ∧
       (registers.x &&& 0xff = 0x0f → 1 < nowdev → halt = true ∧ r2 = registers) ∧
       (registers.x &&& 0xff = 0x0f → nowdev ≤ 1 →
         halt = false ∧
         r2 = (dev.input_byte_available registers).2.set .C
               (¬ (dev.input_byte_available registers).1)) ∧
       (registers.x &&& 0xff ≠ 0x00 → registers.x &&& 0xff ≠ 0x03 →
        registers.x &&& 0xff ≠ 0x06 → registers.x &&& 0xff ≠ 0x09 →
        registers.x &&& 0xff ≠ 0x0c → registers.x &&& 0xff ≠ 0x0f →
        halt = true ∧ r2 = registers))) ∧
    (∀ (devices : Nat → Option ApexCharacterDevice) (mem : Memory)
       (registers r2 : CPU6502Registers) (halt : Bool) (nowdev : Nat),
      mem.read_8 (Apex.SYS_PAGE_ADDRESS + Apex.NOWDEV) = some nowdev →
      Apex.khand devices mem registers = some (halt, r2) →
      devices nowdev = none →
      halt = true ∧ r2 = registers) := by
  constructor
  · intro devices mem registers r2 halt nowdev dev hread hexec hdev
    unfold Apex.khand at hexec
    rw [hread] at hexec
    simp only [Option.bind_eq_bind, Option.some_bind] at hexec
    rcases Nat.lt_or_ge nowdev 8 with hlt | hge
    · rw [if_pos (show nowdev < Apex.MAX_CHAR_DEVICE from hlt), hdev] at hexec
      dsimp only at hexec
      refine ⟨?_, ?_, ?_, ?_, ?_, ?_, ?_, ?_⟩
      · intro h0
        rw [if_pos h0] at hexec
        have h' := Option.some.inj hexec
        rw [Prod.ext_iff] at h'
        exact ⟨h'.1.symm, h'.2.symm⟩
      · intro h3
        rw [if_neg (by rw [h3]; decide), if_pos h3] at hexec
        have h' := Option.some.inj hexec
        rw [Prod.ext_iff] at h'
        exact ⟨h'.1.symm, h'.2.symm⟩
      · intro h6
        rw [if_neg (by rw [h6]; decide), if_neg (by rw [h6]; decide), if_pos h6] at hexec
        have h' := Option.some.inj hexec
        rw [Prod.ext_iff] at h'
        exact ⟨h'.1.symm, h'.2.symm⟩
      · intro h9
        rw [if_neg (by rw [h9]; decide), if_neg (by rw [h9]; decide),
           if_neg (by rw [h9]; decide), if_pos h9] at hexec
        have h' := Option.some.inj hexec
        rw [Prod.ext_iff] at h'
        exact ⟨h'.1.symm, h'.2.symm⟩
      · intro hc
        rw [if_neg (by rw [hc]; decide), if_neg (by rw [hc]; decide),
           if_neg (by rw [hc]; decide), if_neg (by rw [hc]; decide), if_pos hc] at hexec
        have h' := Option.some.inj hexec
        rw [Prod.ext_iff] at h'
        exact ⟨h'.1.symm, h'.2.symm⟩
      · intro hf h1
        rw [if_neg (by rw [hf]; decide), if_neg (by rw [hf]; decide),
           if_neg (by rw [hf]; decide), if_neg (by rw [hf]; decide),
           if_neg (by rw [hf]; decide), if_pos hf, if_pos h1] at hexec
        have h' := Option.some.inj hexec
        rw [Prod.ext_iff] at h'
        exact ⟨h'.1.symm, h'.2.symm⟩
      · intro hf h1
        rw [if_neg (by rw [hf]; decide), if_neg (by rw [hf]; decide),
           if_neg (by rw [hf]; decide), if_neg (by rw [hf]; decide),
           if_neg (by rw [hf]; decide), if_pos hf, if_neg (by omega)] at hexec
        have h' := Option.some.inj hexec
        rw [Prod.ext_iff] at h'
        exact ⟨h'.1.symm, h'.2.symm⟩
      · intro n0 n3 n6 n9 nc nf
        rw [if_neg n0, if_neg n3, if_neg n6, if_neg n9, if_neg nc, if_neg nf] at hexec
        have h' := Option.some.inj hexec
        rw [Prod.ext_iff] at h'
        exact ⟨h'.1.symm, h'.2.symm⟩
    · rw [if_neg (by unfold Apex.MAX_CHAR_DEVICE; omega)] at hexec
      exact absurd hexec (by simp)
  · intro devices mem registers r2 halt nowdev hread hexec hdev
    unfold Apex.khand at hexec
    rw [hread] at hexec
    simp only [Option.bind_eq_bind, Option.some_bind] at hexec
    rcases Nat.lt_or_ge nowdev 8 with hlt | hge
    · rw [if_pos (show nowdev < Apex.MAX_CHAR_DEVICE from hlt), hdev] at hexec
      dsimp only at hexec
      have h' := Option.some.inj hexec
      rw [Prod.ext_iff] at h'
      exact ⟨h'.1.symm, h'.2.symm⟩
    · rw [if_neg (by unfold Apex.MAX_CHAR_DEVICE; omega)] at hexec
      exact absurd hexec (by simp)


/-- Device table with only device 0 (the null device) installed. -/
def c8devices : Nat → Option ApexCharacterDevice :=
  fun n => if n = 0 then some ApexNullDevice else none

/-- System memory with NOWDEV = 0. -/
def c8mem : Memory := mkMemory [(0xbf5c, 0x00)]

/-- Registers requesting KHAND function 0x06 (input byte). -/
def c8regs : CPU6502Registers :=
  { a := 0, x := 6, y := 0, s := 0xff, pc := 0, p := 0, e := true }

/-- The register file produced by that KHAND call. -/
def c8out : CPU6502Registers :=
  ((Apex.khand c8devices c8mem c8regs).map Prod.snd).getD c8regs

/-- C8 witness: KHAND function 0x06 on the null device returns the EOF
byte with C clear. -/
theorem C8_witness :
    Apex.khand c8devices c8mem c8regs = some (false, c8out) ∧
    c8out = (ApexNullDevice.input_byte c8regs).2.set .C
      (¬ (ApexNullDevice.input_byte c8regs).1) ∧
    c8out.a = Apex.EOF_CHARACTER ∧ c8out.test .C = false := by
  have h := ((C8_khand_dispatch.1 c8devices c8mem c8regs c8out false 0 ApexNullDevice
    rfl rfl rfl).2.2.1) (by decide)
  exact ⟨rfl, h.2, rfl, rfl⟩


/-- Modelled from the spec: the claimed dispatcher in which the offset is
taken modulo 3, so that any of the three bytes of a jump-table entry
selects that entry's handler. -/
def vectorExecMod3 (devices : Nat → Option ApexCharacterDevice) (mem : Memory)
    (registers : CPU6502Registers) : Option (Bool × CPU6502Registers) :=
  let off := (registers.pc + 0x100000000 - Apex.SYS_PAGE_ADDRESS) % 0x100000000
  let off := off - ((off - Apex.KRENTR) % 3)
  if off = Apex.KRENTR then some (true, registers)
  else if off = Apex.KSAVER then some (true, registers)
  else if off = Apex.KRELOD then some (true, registers)
  else if off = Apex.KHAND then Apex.khand devices mem registers
  else if off = Apex.KSCAN then some (true, registers)
  else if off = Apex.KRESTD then some (false, registers.set_c false)
  else if off = Apex.KREAD then some (true, registers)
  else if off = Apex.KWRITE then some (true, registers)
  else some (true, registers)

/-- No devices installed. -/
def c9devices : Nat → Option ApexCharacterDevice := fun _ => none

/-- Memory with a return address 0x1233 on the stack at 0x0100..0x0101. -/
def c9mem : Memory := mkMemory [(0x100, 0x33), (0x101, 0x12)]

/-- Registers with PC = 0xBFE0 (a middle byte of the KRESTD jump-table
entry) and C set. -/
def c9regs : CPU6502Registers :=
  { a := 0, x := 0, y := 0, s := 0xff, pc := 0xbfe0, p := 1, e := true }

/-- C9 counterexample: at PC = 0xBFE0 (a middle byte of the KRESTD
jump-table entry) the emulator reports an unrecognized entry vector and
halts, whereas the claimed offset-mod-3 dispatcher would run the KRESTD
handler and clear C. -/
theorem C9_counterexample :
    Apex.vector_exec c9devices c9mem c9regs = some (true, c9regs) ∧
    vectorExecMod3 c9devices c9mem c9regs = some (false, c9regs.set_c false) ∧
    ((true, c9regs) ≠ ((false, c9regs.set_c false) : Bool × CPU6502Registers)) :=
  ⟨rfl, rfl, by decide⟩

set_option maxRecDepth 2000 in
/-- C9 (amended): a PC inside the vector band runs vector_exec and then
an RTS simulation that pops two bytes, adds one and assigns PC; the
dispatch is on the exact offset PC - 0xBF00, so only the first byte of a
jump-table entry selects its handler (0xBFDF runs KRESTD, while 0xBFE0
and 0xBFE1 inside the same entry are unrecognized and halt). -/
theorem C9_exact_offset_dispatch_and_rts :
    (∀ (devices : Nat → Option ApexCharacterDevice) (c : CPU6502) (halt : Bool)
       (c2 : CPU6502),
      Apex.VECTOR_START ≤ c.registers.pc → c.registers.pc < Apex.VECTOR_END →
      c.memory.size = 0x10000 →
      main_loop_step devices c = some (halt, c2) →
      ∃ regs, Apex.vector_exec devices c.memory c.registers = some (halt, regs) ∧
        c2.memory = c.memory ∧
        c2.registers.s = (((regs.s + 1) &&& 0xff) + 1) &&& 0xff ∧
        c2.registers.pc =
          ((c.memory.m_memory (STACK_BASE_ADDRESS ||| ((regs.s + 1) &&& 0xff)) |||
            (c.memory.m_memory
              (STACK_BASE_ADDRESS ||| ((((regs.s + 1) &&& 0xff) + 1) &&& 0xff)) <<< 8)) + 1)
            % 0x10000) ∧
    (∀ (devices : Nat → Option ApexCharacterDevice) (mem : Memory)
       (registers : CPU6502Registers),
      (registers.pc = 0xbfd0 → Apex.vector_exec devices mem registers =
        some (true, registers)) ∧
      (registers.pc = 0xbfd9 → Apex.vector_exec devices mem registers =
        Apex.khand devices mem registers) ∧
      (registers.pc = 0xbfdf → Apex.vector_exec devices mem registers =
        some (false, registers.set_c false)) ∧
      (registers.pc = 0xbfe0 → Apex.vector_exec devices mem registers =
        some (true, registers)) ∧
      (registers.pc = 0xbfe1 → Apex.vector_exec devices mem registers =
        some (true, registers))) := by
  constructor
  · intro devices c halt c2 h1 h2 hsize hexec
    obtain ⟨⟨ra, rx, ry, rs, rpc, rp, re⟩, mem, sets0, mh, mic, mcc, micc⟩ := c
    dsimp only at h1 h2 hsize ⊢
    unfold main_loop_step at hexec
    rw [if_pos ⟨h1, h2⟩] at hexec
    simp only [Option.bind_eq_bind] at hexec
    cases hvec : Apex.vector_exec devices mem ⟨ra, rx, ry, rs, rpc, rp, re⟩ with
    | none =>
      rw [hvec] at hexec
      exact absurd hexec (by simp)
    | some p =>
      obtain ⟨halt0, regs⟩ := p
      rw [hvec] at hexec
      simp only [Option.some_bind] at hexec
      unfold CPU6502.execute_rts CPU6502.execute_RTS at hexec
      rw [stack_pop_eq _ (by dsimp only; rw [hsize]; exact stack_addr_lt (by
        rw [and_255]; omega))] at hexec
      simp only [Option.bind_eq_bind, Option.some_bind] at hexec
      rw [stack_pop_eq _ (by dsimp only; rw [hsize]; exact stack_addr_lt (by
        rw [and_255]; omega))] at hexec
      simp only [Option.some_bind] at hexec
      have h' := Option.some.inj hexec
      rw [Prod.mk.injEq] at h'
      obtain ⟨hh, hc2⟩ := h'
      subst hh
      subst hc2
      exact ⟨regs, rfl, rfl, rfl, rfl⟩
  · intro devices mem registers
    refine ⟨?_, ?_, ?_, ?_, ?_⟩ <;>
    · intro hpc
      unfold Apex.vector_exec
      simp only [hpc, Apex.SYS_PAGE_ADDRESS, Apex.KRENTR, Apex.KSAVER, Apex.KRELOD,
        Apex.KHAND, Apex.KSCAN, Apex.KRESTD, Apex.KREAD, Apex.KWRITE]
      norm_num


/-- Machine at the exact KRESTD vector 0xBFDF with C set and return
address 0x1233 on the stack. -/
def c9in : CPU6502 :=
  { registers := { a := 0, x := 0, y := 0, s := 0xff, pc := 0xbfdf, p := 1, e := true },
    memory := c9mem, sets := CPU_6502, m_halt := false,
    m_instruction_count := 0, m_cycle_count := 0, m_instruction_cycle_count := 0 }

/-- The machine c9in after one main-loop iteration. -/
def c9out : CPU6502 := ((main_loop_step c9devices c9in).map Prod.snd).getD c9in

/-- C9 witness: the KRESTD call at 0xBFDF followed by the simulated RTS
returning to 0x1234. -/
theorem C9_witness :
    main_loop_step c9devices c9in = some (false, c9out) ∧
    (∃ regs, Apex.vector_exec c9devices c9in.memory c9in.registers = some (false, regs) ∧
      c9out.memory = c9in.memory ∧
      c9out.registers.s = (((regs.s + 1) &&& 0xff) + 1) &&& 0xff ∧
      c9out.registers.pc =
        ((c9in.memory.m_memory (STACK_BASE_ADDRESS ||| ((regs.s + 1) &&& 0xff)) |||
          (c9in.memory.m_memory
            (STACK_BASE_ADDRESS ||| ((((regs.s + 1) &&& 0xff) + 1) &&& 0xff)) <<< 8)) + 1)
          % 0x10000) ∧
    c9out.registers.pc = 0x1234 := by
  have h := C9_exact_offset_dispatch_and_rts.1 c9devices c9in false c9out
    (by decide) (by decide) rfl rfl
  exact ⟨rfl, h, rfl⟩



theorem copy_range_size (m : Memory) (page : List Nat) (a b c : Nat) :
    (m.copy_range page a b c).size = m.size := rfl

theorem copy_range_get (m : Memory) (page : List Nat) (src_lo src_hi base addr : Nat) :
    (m.copy_range page src_lo src_hi base).m_memory addr =
      if base ≤ addr ∧ addr < base + (src_hi - src_lo) then
        page.getD (src_lo + (addr - base)) 0
      else m.m_memory addr := rfl

theorem load_pages_size (pages : List (List Nat)) :
    ∀ (m : Memory) (address : Nat), (Memory.load_pages m address pages).size = m.size := by
  induction pages with
  | nil => intro m address; rfl
  | cons page rest ih =>
    intro m address
    rw [Memory.load_pages, ih]
    rfl

theorem load_pages_get (pages : List (List Nat)) :
    ∀ (m : Memory) (address a : Nat),
      (Memory.load_pages m address pages).m_memory a =
        if address ≤ a ∧ a < address + 0x100 * pages.length then
          (pages.getD ((a - address) / 0x100) []).getD ((a - address) % 0x100) 0
        else m.m_memory a := by
  induction pages with
  | nil =>
    intro m address a
    rw [if_neg (by simp)]
    rfl
  | cons page rest ih =>
    intro m address a
    rw [Memory.load_pages, ih, copy_range_get]
    simp only [Apex.PAGE_SIZE, List.length_cons, Nat.sub_zero, Nat.zero_add]
    rcases Nat.lt_or_ge a address with h0 | h1
    · rw [if_neg (show ¬(address + 0x100 ≤ a ∧ a < address + 0x100 + 0x100 * rest.length)
            from by omega),
          if_neg (show ¬(address ≤ a ∧ a < address + 0x100) from by omega),
          if_neg (show ¬(address ≤ a ∧ a < address + 0x100 * (rest.length + 1)) from by omega)]
    · rcases Nat.lt_or_ge a (address + 0x100) with h2 | h3
      · rw [if_neg (show ¬(address + 0x100 ≤ a ∧ a < address + 0x100 + 0x100 * rest.length)
              from by omega),
            if_pos (show address ≤ a ∧ a < address + 0x100 from by omega),
            if_pos (show address ≤ a ∧ a < address + 0x100 * (rest.length + 1) from by omega)]
        rw [show (a - address) / 0x100 = 0 from by omega,
            show (a - address) % 0x100 = a - address from by omega]
        rfl
      · rcases Nat.lt_or_ge a (address + 0x100 + 0x100 * rest.length) with h4 | h5
        · rw [if_pos (show address + 0x100 ≤ a ∧ a < address + 0x100 + 0x100 * rest.length
                from by omega),
              if_pos (show address ≤ a ∧ a < address + 0x100 * (rest.length + 1) from by omega)]
          rw [show (a - address) / 0x100 = (a - (address + 0x100)) / 0x100 + 1 from by omega,
              show (a - address) % 0x100 = (a - (address + 0x100)) % 0x100 from by omega]
          rfl
        · rw [if_neg (show ¬(address + 0x100 ≤ a ∧ a < address + 0x100 + 0x100 * rest.length)
                from by omega),
              if_neg (show ¬(address ≤ a ∧ a < address + 0x100) from by omega),
              if_neg (show ¬(address ≤ a ∧ a < address + 0x100 * (rest.length + 1))
                from by omega)]



theorem chunk_pages_go_fuel : ∀ (fuel : Nat) (file : List Nat) (fuel2 : Nat),
    file.length ≤ fuel → file.length ≤ fuel2 →
    Memory.chunk_pages_go fuel file = Memory.chunk_pages_go fuel2 file := by
  intro fuel
  induction fuel with
  | zero =>
    intro file fuel2 h h2
    have hfile : file = [] := List.length_eq_zero.mp (by omega)
    subst hfile
    cases fuel2 with
    | zero => rfl
    | succ m =>
      show ([] : List (List Nat)) =
        if Apex.PAGE_SIZE ≤ ([] : List Nat).length then _ else []
      rw [if_neg (by simp [Apex.PAGE_SIZE])]
  | succ n ih =>
    intro file fuel2 h h2
    cases fuel2 with
    | zero =>
      have hfile : file = [] := List.length_eq_zero.mp (by omega)
      subst hfile
      show (if Apex.PAGE_SIZE ≤ ([] : List Nat).length then _ else []) =
        ([] : List (List Nat))
      rw [if_neg (by simp [Apex.PAGE_SIZE])]
    | succ m =>
      show (if Apex.PAGE_SIZE ≤ file.length then
          file.take Apex.PAGE_SIZE :: Memory.chunk_pages_go n (file.drop Apex.PAGE_SIZE)
        else []) =
        (if Apex.PAGE_SIZE ≤ file.length then
          file.take Apex.PAGE_SIZE :: Memory.chunk_pages_go m (file.drop Apex.PAGE_SIZE)
        else [])
      by_cases hc : Apex.PAGE_SIZE ≤ file.length
      · rw [if_pos hc, if_pos hc]
        have hp : (0x100 : Nat) ≤ file.length := hc
        congr 1
        exact ih (file.drop Apex.PAGE_SIZE) m
          (by simp only [List.length_drop, Apex.PAGE_SIZE]; omega)
          (by simp only [List.length_drop, Apex.PAGE_SIZE]; omega)
      · rw [if_neg hc, if_neg hc]

theorem chunk_pages_eq (file : List Nat) (h : 0x100 ≤ file.length) :
    Memory.chunk_pages file = file.take 0x100 :: Memory.chunk_pages (file.drop 0x100) := by
  unfold Memory.chunk_pages
  rw [show file.length = (file.length - 1) + 1 from by omega]
  show (if Apex.PAGE_SIZE ≤ file.length then
      file.take Apex.PAGE_SIZE ::
        Memory.chunk_pages_go (file.length - 1) (file.drop Apex.PAGE_SIZE)
    else []) = _
  rw [if_pos (show Apex.PAGE_SIZE ≤ file.length from h)]
  rw [chunk_pages_go_fuel (file.length - 1) (file.drop Apex.PAGE_SIZE)
    (file.drop 0x100).length
    (by simp only [List.length_drop, Apex.PAGE_SIZE]; omega)
    (by simp only [List.length_drop, Apex.PAGE_SIZE]; omega)]
  rfl

theorem chunk_pages_nil (file : List Nat) (h : ¬ 0x100 ≤ file.length) :
    Memory.chunk_pages file = [] := by
  unfold Memory.chunk_pages
  cases hl : file.length with
  | zero => rfl
  | succ n =>
    show (if Apex.PAGE_SIZE ≤ file.length then _ else []) = ([] : List (List Nat))
    rw [if_neg (show ¬ Apex.PAGE_SIZE ≤ file.length from h)]

theorem chunk_pages_len : ∀ (n : Nat) (file : List Nat), file.length ≤ n →
    (Memory.chunk_pages file).length = file.length / 0x100 := by
  intro n
  induction n with
  | zero =>
    intro file hf
    rw [chunk_pages_nil file (by omega)]
    simp only [List.length_nil]
    omega
  | succ n ih =>
    intro file hf
    by_cases h : 0x100 ≤ file.length
    · rw [chunk_pages_eq file h]
      simp only [List.length_cons]
      rw [ih (file.drop 0x100) (by simp only [List.length_drop]; omega)]
      simp only [List.length_drop]
      omega
    · rw [chunk_pages_nil file h]
      simp only [List.length_nil]
      omega

theorem chunk_pages_getD : ∀ (k : Nat) (file : List Nat) (r : Nat), r < 0x100 →
    0x100 * (k + 1) ≤ file.length →
    ((Memory.chunk_pages file).getD k []).getD r 0 = file.getD (0x100 * k + r) 0 := by
  intro k
  induction k with
  | zero =>
    intro file r hr hlen
    rw [chunk_pages_eq file (by omega)]
    show (file.take 0x100).getD r 0 = file.getD (0x100 * 0 + r) 0
    rw [show 0x100 * 0 + r = r from by omega]
    simp [List.getD_eq_getElem?_getD, List.getElem?_take, hr]
  | succ k ih =>
    intro file r hr hlen
    rw [chunk_pages_eq file (by omega)]
    show ((Memory.chunk_pages (file.drop 0x100)).getD k []).getD r 0 = _
    rw [ih (file.drop 0x100) r hr (by simp only [List.length_drop]; omega)]
    simp only [List.getD_eq_getElem?_getD, List.getElem?_drop]
    rw [show 0x100 + (0x100 * k + r) = 0x100 * (k + 1) + r from by omega]

set_option maxHeartbeats 1000000 in
/-- C7: with at least one full page in the SAV file and the user area
(selected by the little-endian word at 0xBF15, USRMEM) lying between the
zero page and the system page, load_apex_sav copies bytes 0x00..0x4F of
the first page to 0xBF00..0xBF4F, bytes 0x50..0xFF to 0x0050..0x00FF,
and each subsequent full page sequentially from the USRMEM address,
stopping at end of file and leaving all other memory unchanged. -/
theorem C7_load_apex_sav :
    ∀ (m m2 : Memory) (file : List Nat),
      m.size = 0x10000 →
      0x100 ≤ file.length →
      Memory.load_apex_sav m file = some m2 →
      0x200 ≤ file.getD 0x15 0 ||| ((file.getD 0x16 0) <<< 8) →
      (file.getD 0x15 0 ||| ((file.getD 0x16 0) <<< 8)) +
        (file.length / 0x100 - 1) * 0x100 ≤ 0xbf00 →
      (∀ i, i < 0x50 → m2.m_memory (0xbf00 + i) = file.getD i 0) ∧
      (∀ i, 0x50 ≤ i → i < 0x100 → m2.m_memory i = file.getD i 0) ∧
      (∀ j, j < (file.length / 0x100 - 1) * 0x100 →
        m2.m_memory ((file.getD 0x15 0 ||| ((file.getD 0x16 0) <<< 8)) + j) =
          file.getD (0x100 + j) 0) ∧
      (∀ a, ¬ (0xbf00 ≤ a ∧ a < 0xbf50) → ¬ (0x50 ≤ a ∧ a < 0x100) →
        ¬ ((file.getD 0x15 0 ||| ((file.getD 0x16 0) <<< 8)) ≤ a ∧
           a < (file.getD 0x15 0 ||| ((file.getD 0x16 0) <<< 8)) +
             (file.length / 0x100 - 1) * 0x100) →
        m2.m_memory a = m.m_memory a) := by
  intro m m2 file hsize hlen hload hb1 hb2
  unfold Memory.load_apex_sav at hload
  rw [chunk_pages_eq file hlen] at hload
  dsimp only at hload
  unfold Memory.read_16_le at hload
  have hsz2 : ∀ x : Nat, x < 0x10000 →
      x < ((m.copy_range (file.take 0x100) Apex.SYS_PAGE_PROGRAM_AREA_SIZE Apex.PAGE_SIZE
        Apex.SYS_PAGE_PROGRAM_AREA_SIZE).size) := by
    intro x hx
    rw [copy_range_size, hsize]
    exact hx
  rw [Memory.read_8_eq_some (by rw [copy_range_size, copy_range_size, hsize]; decide),
      Memory.read_8_eq_some (by rw [copy_range_size, copy_range_size, hsize]; decide)] at hload
  simp only [Apex.SYS_PAGE_ADDRESS, Apex.USRMEM, Apex.SYS_PAGE_PROGRAM_AREA_SIZE,
    Apex.PAGE_SIZE] at hload
  rw [copy_range_get, copy_range_get, copy_range_get, copy_range_get] at hload
  rw [if_neg (show ¬ ((0x50 : Nat) ≤ 0xbf00 + 0x15 ∧ 0xbf00 + 0x15 < 0x50 + (0x100 - 0x50))
        from by omega),
      if_pos (show (0xbf00 : Nat) ≤ 0xbf00 + 0x15 ∧ 0xbf00 + 0x15 < 0xbf00 + (0x50 - 0)
        from by omega),
      if_neg (show ¬ ((0x50 : Nat) ≤ 0xbf00 + 0x15 + 1 ∧
          0xbf00 + 0x15 + 1 < 0x50 + (0x100 - 0x50)) from by omega),
      if_pos (show (0xbf00 : Nat) ≤ 0xbf00 + 0x15 + 1 ∧ 0xbf00 + 0x15 + 1 < 0xbf00 + (0x50 - 0)
        from by omega)] at hload
  rw [show (0 : Nat) + (0xbf00 + 0x15 - 0xbf00) = 0x15 from by omega,
      show (0 : Nat) + (0xbf00 + 0x15 + 1 - 0xbf00) = 0x16 from by omega] at hload
  rw [show (file.take 0x100).getD 0x15 0 = file.getD 0x15 0 from by
        simp [List.getD_eq_getElem?_getD, List.getElem?_take],
      show (file.take 0x100).getD 0x16 0 = file.getD 0x16 0 from by
        simp [List.getD_eq_getElem?_getD, List.getElem?_take]] at hload
  have hm2 := (Option.some.inj hload).symm
  subst hm2
  generalize hB : file.getD 0x15 0 ||| ((file.getD 0x16 0) <<< 8) = B at hb1 hb2 ⊢
  have hrl : (Memory.chunk_pages (file.drop 0x100)).length = file.length / 0x100 - 1 := by
    rw [chunk_pages_len (file.drop 0x100).length (file.drop 0x100) le_rfl]
    simp only [List.length_drop]
    omega
  refine ⟨?_, ?_, ?_, ?_⟩
  · intro i hi
    rw [load_pages_get, if_neg (by rw [hrl]; omega), copy_range_get,
        if_neg (show ¬ ((0x50 : Nat) ≤ 0xbf00 + i ∧ 0xbf00 + i < 0x50 + (0x100 - 0x50))
          from by omega),
        copy_range_get,
        if_pos (show (0xbf00 : Nat) ≤ 0xbf00 + i ∧ 0xbf00 + i < 0xbf00 + (0x50 - 0)
          from by omega)]
    rw [show (0 : Nat) + (0xbf00 + i - 0xbf00) = i from by omega]
    simp [List.getD_eq_getElem?_getD, List.getElem?_take, show i < 0x100 from by omega]
  · intro i h5 hi
    rw [load_pages_get, if_neg (by rw [hrl]; omega), copy_range_get,
        if_pos (show (0x50 : Nat) ≤ i ∧ i < 0x50 + (0x100 - 0x50) from by omega)]
    rw [show (0x50 : Nat) + (i - 0x50) = i from by omega]
    simp [List.getD_eq_getElem?_getD, List.getElem?_take, show i < 0x100 from by omega]
  · intro j hj
    rw [load_pages_get, if_pos (by rw [hrl]; omega)]
    rw [show B + j - B = j from by omega]
    rw [show j / 0x100 = j / 0x100 from rfl]
    rw [chunk_pages_getD (j / 0x100) (file.drop 0x100) (j % 0x100) (by omega)
          (by simp only [List.length_drop]; omega)]
    rw [show (0x100 : Nat) * (j / 0x100) + j % 0x100 = j from by omega]
    simp [List.getD_eq_getElem?_getD, List.getElem?_drop]
  · intro a hn1 hn2 hn3
    rw [load_pages_get, if_neg (by rw [hrl]; omega), copy_range_get,
        if_neg (by omega), copy_range_get, if_neg (by omega)]

/-- A 512-byte SAV image: program-area bytes 0xAA, USRMEM = 0x0200, the
rest of page 0 and all of page 1 filled with 0xBB. -/
def c7file : List Nat :=
  List.replicate 0x15 0xaa ++ [0x00, 0x02] ++ List.replicate 0x1e9 0xbb

/-- An all-zero 64 KiB memory. -/
def c7mem : Memory := mkMemory []

/-- The memory after loading c7file. -/
def c7out : Memory := (c7mem.load_apex_sav c7file).getD c7mem

set_option maxRecDepth 8192 in
/-- C7 witness: loading the 512-byte image places the program area at
0xBF00, the zero-page tail at 0x0050 and the second page at 0x0200. -/
theorem C7_witness :
    Memory.load_apex_sav c7mem c7file = some c7out ∧
    (∀ i, i < 0x50 → c7out.m_memory (0xbf00 + i) = c7file.getD i 0) ∧
    (∀ i, 0x50 ≤ i → i < 0x100 → c7out.m_memory i = c7file.getD i 0) ∧
    (∀ j, j < (c7file.length / 0x100 - 1) * 0x100 →
      c7out.m_memory ((c7file.getD 0x15 0 ||| ((c7file.getD 0x16 0) <<< 8)) + j) =
        c7file.getD (0x100 + j) 0) ∧
    c7out.m_memory 0xbf00 = 0xaa ∧ c7out.m_memory 0x60 = 0xbb ∧
    c7out.m_memory 0x200 = 0xbb := by
  have h := C7_load_apex_sav c7mem c7out c7file rfl (by decide) rfl (by decide) (by decide)
  exact ⟨rfl, h.1, h.2.1, h.2.2.1, rfl, rfl, rfl⟩

end Ibex


